import Mathlib

/-!
# Verification development for the detonator editor GUI

Shallow embedding of `editor/gui/gfxwidget.h` (the `GfxWindow` rendering
surface and its `GfxWidget` shim) and of `editor/gui/dlgsettings.cpp`
(the settings dialog).

Conventions of the embedding:

* a C++ member function becomes a Lean function on the object's state;
  a `static` member function becomes a function on `GfxStatics`;
* a pointer (`T*`, `std::shared_ptr`, `std::unique_ptr`) and a
  `std::optional` become `Option`;
* a member function that dereferences a pointer returns `Option`: the result
  `none` stands for the dereference of a null pointer;
* `float` and `double` values are carried as rationals; no rounding is
  modelled.
-/

namespace gfx

/-- The colour type `gfx::Color4f`: four float channels, carried as rationals. -/
structure Color4f where
  mRed : ℚ
  mGreen : ℚ
  mBlue : ℚ
  mAlpha : ℚ
deriving DecidableEq

/-- Modelled from the spec: the integer constructor of `gfx::Color4f`
(`graphics/color4f.h` is not among the sources); each 8-bit channel is scaled
to the unit interval. -/
def Color4f.ofRGBA (r g b a : Nat) : Color4f :=
  ⟨(r : ℚ) / 255, (g : ℚ) / 255, (b : ℚ) / 255, (a : ℚ) / 255⟩

/-- Modelled from the spec: `gfx::Device::ResourceStats`, the counts of live
GPU objects a device reports (`graphics/device.h` is not among the sources). -/
structure ResourceStats where
  programs : Nat := 0
  shaders : Nat := 0
  textures : Nat := 0
deriving DecidableEq

/-- Modelled from the spec: the part of `gfx::Device` the surface calls into,
the pools of live programs, shaders and textures, keyed by GPU id
(`graphics/device.h` is not among the sources). -/
structure Device where
  programs : List String
  shaders : List String
  textures : List String
deriving DecidableEq

/-- Modelled from the spec: `gfx::Device::DeletePrograms`. -/
def Device.DeletePrograms (d : Device) : Device := { d with programs := [] }

/-- Modelled from the spec: `gfx::Device::DeleteShaders`. -/
def Device.DeleteShaders (d : Device) : Device := { d with shaders := [] }

/-- Modelled from the spec: `gfx::Device::DeleteTextures`. -/
def Device.DeleteTextures (d : Device) : Device := { d with textures := [] }

/-- Modelled from the spec: `gfx::Device::GetResourceStats`, the counts of the
live objects. -/
def Device.GetResourceStats (d : Device) : ResourceStats :=
  { programs := d.programs.length, shaders := d.shaders.length, textures := d.textures.length }

/-- A call the surface issues to the device while painting. -/
inductive DeviceCall where
  | clearColor (color : Color4f)
  | draw (what : String)
  | swapBuffers (vsync : Bool)
deriving DecidableEq

/-- Modelled from the spec: `gfx::Painter`, which issues draw commands against
a device within one frame (`graphics/painter.h` is not among the sources). -/
structure Painter where
  issued : List DeviceCall
deriving DecidableEq

end gfx

namespace gui

/-- The key event payload `QKeyEvent`: key code and the shift modifier. -/
structure QKeyEvent where
  key : Nat
  shift : Bool
deriving DecidableEq

/-- The enum `GfxWindow::MouseCursor`. -/
inductive MouseCursor where
  | Native
  | Custom
deriving DecidableEq

/-- The enum `GfxWindow::CursorShape`. -/
inductive CursorShape where
  | ArrowCursor
  | CrossHair
deriving DecidableEq

/-- The static data members of `GfxWindow` (gfxwidget.h, lines 204-207):
process-wide state, one copy for all surfaces. The filters are carried as
enum ordinals. -/
structure GfxStatics where
  DefaultMinFilter : Nat
  DefaultMagFilter : Nat
  ClearColor : gfx.Color4f
  WindowMouseCursor : MouseCursor
deriving DecidableEq

/-- The class `GfxWindow`: its data members (gfxwidget.h, lines 186-202) and
the callback members the claims use. `mClock` is the host clock and is passed
to the paint cycle as a reading. -/
structure GfxWindow where
  mCustomGraphicsDevice : Option gfx.Device := none
  mCustomGraphicsPainter : Option gfx.Painter := none
  mClearColor : Option gfx.Color4f := none
  mVsync : Bool := false
  mHasFocus : Bool := false
  mInitDone : Bool := false
  mNumFrames : Nat := 0
  mCurrentFps : ℚ := 0
  mTimeStamp : ℚ := 0
  mTimeAccum : ℚ := 0
  mCursorShape : CursorShape := CursorShape.ArrowCursor
  mContext : Option Unit := none
  onPaintScene : Option (gfx.Painter → ℚ → List gfx.DeviceCall) := none
  onKeyPress : Option (QKeyEvent → Bool) := none
  onKeyRelease : Option (QKeyEvent → Bool) := none

namespace GfxWindow

/-- `GfxWindow::GetClearColor` (lines 88-93): null when the optional holds no
value, else a pointer to the held value. -/
def GetClearColor (w : GfxWindow) : Option gfx.Color4f :=
  match w.mClearColor with
  | none => none
  | some c => some c

/-- `GfxWindow::SetClearColor` (lines 109-110). -/
def SetClearColor (color : gfx.Color4f) (w : GfxWindow) : GfxWindow :=
  { w with mClearColor := some color }

/-- `GfxWindow::ResetClearColor` (lines 112-113). -/
def ResetClearColor (w : GfxWindow) : GfxWindow :=
  { w with mClearColor := none }

/-- `GfxWindow::GetTime` (lines 106-107). -/
def GetTime (w : GfxWindow) : ℚ := w.mTimeAccum

/-- `GfxWindow::getCurrentFPS` (lines 117-118). -/
def getCurrentFPS (w : GfxWindow) : ℚ := w.mCurrentFps

/-- `GfxWindow::GetDevice` (lines 94-95): the raw pointer, no dereference. -/
def GetDevice (w : GfxWindow) : Option gfx.Device := w.mCustomGraphicsDevice

/-- `GfxWindow::GetPainter` (lines 96-97). -/
def GetPainter (w : GfxWindow) : Option gfx.Painter := w.mCustomGraphicsPainter

/-- `GfxWindow::getDeviceResourceStats` (lines 98-104): default-constructed
statistics, overwritten by the device only when the device pointer is set. -/
def getDeviceResourceStats (w : GfxWindow) : gfx.ResourceStats :=
  let stats : gfx.ResourceStats := {}
  match w.mCustomGraphicsDevice with
  | some device => device.GetResourceStats
  | none => stats

/-- `GfxWindow::reloadShaders` (lines 65-73): `mCustomGraphicsDevice->` is
dereferenced with no test; `none` is the null dereference. -/
def reloadShaders (w : GfxWindow) : Option GfxWindow :=
  match w.mCustomGraphicsDevice with
  | none => none
  | some device =>
    some { w with mCustomGraphicsDevice := some device.DeletePrograms.DeleteShaders }

/-- `GfxWindow::reloadTextures` (lines 74-77): `mCustomGraphicsDevice->` is
dereferenced with no test; `none` is the null dereference. -/
def reloadTextures (w : GfxWindow) : Option GfxWindow :=
  match w.mCustomGraphicsDevice with
  | none => none
  | some device => some { w with mCustomGraphicsDevice := some device.DeleteTextures }

/-- `GfxWindow::SetDefaultClearColor` (lines 152-153), a static member. -/
def SetDefaultClearColor (color : gfx.Color4f) (g : GfxStatics) : GfxStatics :=
  { g with ClearColor := color }

/-- `GfxWindow::GetDefaultClearColor` (lines 154-155), a static member. -/
def GetDefaultClearColor (g : GfxStatics) : gfx.Color4f := g.ClearColor

/-- Modelled from the spec: `GfxWindow::GetCurrentClearColor` is declared at
line 86 and defined in `gfxwidget.cpp`, which is not among the sources. The
spec (4.2, step 4): "resolve the effective clear color: per-surface override
if set, else process-wide default". -/
def GetCurrentClearColor (g : GfxStatics) (w : GfxWindow) : gfx.Color4f :=
  match w.mClearColor with
  | some c => c
  | none => g.ClearColor

/-- A handle a surface gives up in `dispose`. -/
inductive Released where
  | painter
  | device
  | context
deriving DecidableEq

/-- Modelled from the spec: `GfxWindow::dispose` is declared at line 63 and
defined in `gfxwidget.cpp`, which is not among the sources. The spec (4.1):
"Releases device, painter, and context"; (4.5): on a never-initialized or
already-disposed surface it "does nothing harmful". Each handle that is held
is released and cleared; a handle that is not held is left alone. The second
component lists the handles this call released. -/
def dispose (w : GfxWindow) : GfxWindow × List Released :=
  let painter := if w.mCustomGraphicsPainter.isSome then [Released.painter] else []
  let device := if w.mCustomGraphicsDevice.isSome then [Released.device] else []
  let context := if w.mContext.isSome then [Released.context] else []
  ({ w with mCustomGraphicsPainter := none, mCustomGraphicsDevice := none, mContext := none },
    painter ++ device ++ context)

/-- The state after `n` consecutive `dispose()` calls, with the handles each
call released, in call order. -/
def disposeTimes : Nat → GfxWindow → GfxWindow × List (List Released)
  | 0, w => (w, [])
  | n + 1, w =>
    let r := disposeTimes n (dispose w).1
    (r.1, (dispose w).2 :: r.2)

/-- Modelled from the spec: the two quantities of the paint cycle the visible
code does not fix (spec, section 9): the bound the elapsed time is clamped to
and the smoothing of the FPS estimate (previous estimate, frame count and
elapsed seconds to new estimate). -/
structure PaintPolicy where
  maxSecs : ℚ
  smoothFps : ℚ → Nat → ℚ → ℚ

/-- Modelled from the spec: step 1 of the paint cycle (4.2), the elapsed
seconds "clamped to avoid negative or absurd deltas". -/
def clampSecs (policy : PaintPolicy) (delta : ℚ) : ℚ :=
  max 0 (min delta policy.maxSecs)

/-- Modelled from the spec: `GfxWindow::paintGL` is declared at line 174 and
defined in `gfxwidget.cpp`, which is not among the sources. The spec (4.2),
steps 1 to 7: elapsed seconds from the clock reading `now`, clamped;
accumulate into the running total; update the FPS estimate; resolve the clear
colour; clear; invoke the paint callback when one is registered; present with
the surface's vsync setting. A surface without context, device or painter
(never initialised, failed context creation, disposed) does nothing (4.1,
4.5). The result is the new state and the device calls issued. -/
def paintGL (policy : PaintPolicy) (g : GfxStatics) (now : ℚ) (w : GfxWindow) :
    GfxWindow × List gfx.DeviceCall :=
  match w.mContext, w.mCustomGraphicsDevice, w.mCustomGraphicsPainter with
  | some _, some _, some painter =>
    let secs := clampSecs policy (now - w.mTimeStamp)
    let frames := (w.mNumFrames + 1) % 2 ^ 64
    let color := GetCurrentClearColor g w
    let scene :=
      match w.onPaintScene with
      | some callback => callback painter secs
      | none => []
    ({ w with
        mTimeStamp := now
        mTimeAccum := w.mTimeAccum + secs
        mNumFrames := frames
        mCurrentFps := policy.smoothFps w.mCurrentFps frames secs },
      [gfx.DeviceCall.clearColor color] ++ scene ++ [gfx.DeviceCall.swapBuffers w.mVsync])
  | _, _, _ => (w, [])

/-- `GfxWindow::triggerPaint` (lines 79-82): calls `paintGL`. -/
def triggerPaint (policy : PaintPolicy) (g : GfxStatics) (now : ℚ) (w : GfxWindow) :
    GfxWindow × List gfx.DeviceCall :=
  paintGL policy g now w

/-- The surface after a run of paint cycles, one per clock reading. -/
def paintAll (policy : PaintPolicy) (g : GfxStatics) : List ℚ → GfxWindow → GfxWindow
  | [], w => w
  | now :: rest, w => paintAll policy g rest (triggerPaint policy g now w).1

/-- The values `GetTime()` returns along a run of paint cycles: before the
first paint and after each one. -/
def timesAlong (policy : PaintPolicy) (g : GfxStatics) : List ℚ → GfxWindow → List ℚ
  | [], w => [GetTime w]
  | now :: rest, w => GetTime w :: timesAlong policy g rest (triggerPaint policy g now w).1

end GfxWindow

/-- Modelled from the spec: the process-wide GPU resource state behind the
static operations `CleanGarbage`, `DeleteTexture`, `BeginFrame` and `EndFrame`
(declared at lines 156-160, defined in `gfxwidget.cpp`, which is not among
the sources): the device shared by the surfaces, the texture ids queued for
deletion, and the frame flag (spec, 4.4). -/
structure FrameState where
  device : gfx.Device
  garbage : List String
  inFrame : Bool
deriving DecidableEq

namespace GfxWindow

/-- Modelled from the spec: `GfxWindow::BeginFrame`, "marks the start of a
frame pass (no-op state flip, used for bookkeeping)". -/
def BeginFrame (s : FrameState) : FrameState := { s with inFrame := true }

/-- Modelled from the spec: `GfxWindow::DeleteTexture`, "queues a single named
texture for deferred deletion rather than deleting immediately". -/
def DeleteTexture (gpuId : String) (s : FrameState) : FrameState :=
  { s with garbage := s.garbage ++ [gpuId] }

/-- Modelled from the spec: `GfxWindow::CleanGarbage`, "releasing GPU objects
queued for deletion by any surface since the last frame". -/
def CleanGarbage (s : FrameState) : FrameState :=
  { s with
    device := { s.device with textures := s.device.textures.filter (fun t => !s.garbage.contains t) }
    garbage := [] }

/-- Modelled from the spec: `GfxWindow::EndFrame`, which "returns whether any
deferred cleanup occurred and is the designated point where `CleanGarbage()`
... is actually executed". -/
def EndFrame (s : FrameState) : FrameState × Bool :=
  let cleaned := CleanGarbage { s with inFrame := false }
  (cleaned, decide (cleaned.device ≠ s.device))

/-- A run of `DeleteTexture` calls, in order. -/
def deleteTextures (ids : List String) (s : FrameState) : FrameState :=
  ids.foldl (fun acc gpuId => DeleteTexture gpuId acc) s

end GfxWindow

/-- The enum `GfxWidget::WidgetFocus` (lines 300-303). -/
inductive WidgetFocus where
  | FocusNextWidget
  | FocusPrevWidget
deriving DecidableEq

/-- The class `GfxWidget`: the window pointer `mWindow` (line 311) with the
state of the window it points to, and the keyboard callbacks (lines 277-278). -/
structure GfxWidget where
  mWindow : Option GfxWindow := none
  onKeyPress : Option (QKeyEvent → Bool) := none
  onKeyRelease : Option (QKeyEvent → Bool) := none

namespace GfxWidget

/-- `GfxWidget::GetClearColor` (lines 237-238): `mWindow->GetClearColor()`. -/
def GetClearColor (wd : GfxWidget) : Option (Option gfx.Color4f) :=
  match wd.mWindow with
  | none => none
  | some w => some w.GetClearColor

/-- `GfxWidget::SetClearColor` (lines 248-251): `mWindow->SetClearColor(color)`. -/
def SetClearColor (color : gfx.Color4f) (wd : GfxWidget) : Option GfxWidget :=
  match wd.mWindow with
  | none => none
  | some w => some { wd with mWindow := some (w.SetClearColor color) }

/-- `GfxWidget::ResetClearColor` (lines 253-256): `mWindow->ResetClearColor()`. -/
def ResetClearColor (wd : GfxWidget) : Option GfxWidget :=
  match wd.mWindow with
  | none => none
  | some w => some { wd with mWindow := some w.ResetClearColor }

/-- `GfxWidget::GetCurrentClearColor` (lines 234-235). -/
def GetCurrentClearColor (g : GfxStatics) (wd : GfxWidget) : Option gfx.Color4f :=
  match wd.mWindow with
  | none => none
  | some w => some (GfxWindow.GetCurrentClearColor g w)

/-- `GfxWidget::GetDevice` (lines 239-240): `mWindow ? mWindow->GetDevice() : nullptr`. -/
def GetDevice (wd : GfxWidget) : Option gfx.Device :=
  match wd.mWindow with
  | some w => w.GetDevice
  | none => none

/-- The Qt key code `Qt::Key_Tab`. -/
def Key_Tab : Nat := 0x01000001

/-- The Qt key code `Qt::Key_Backtab`. -/
def Key_Backtab : Nat := 0x01000002

/-- Modelled from the spec: the default focus navigation for a key (4.3),
"focus-cycling shortcuts such as Tab/Shift-Tab moving focus between sibling
widgets": Tab moves to the next widget, Shift-Tab to the previous one, any
other key moves nothing. The result is the `FocusNextPrev` call made. -/
def defaultFocusNavigation (key : QKeyEvent) : Option WidgetFocus :=
  if key.key = Key_Backtab ∨ (key.key = Key_Tab ∧ key.shift = true) then
    some WidgetFocus.FocusPrevWidget
  else if key.key = Key_Tab then some WidgetFocus.FocusNextWidget
  else none

/-- Modelled from the spec: the key-press path of the widget (the handler is
wired in `gfxwidget.cpp`, which is not among the sources). Lines 274-276:
the callback "returns true if the key press event was consumed. This will stop
further processing of the keypress"; otherwise the default focus navigation
runs. The result is the consumed flag and the `FocusNextPrev` call made. -/
def keyPress (wd : GfxWidget) (key : QKeyEvent) : Bool × Option WidgetFocus :=
  match wd.onKeyPress with
  | some callback =>
    if callback key then (true, none)
    else (false, defaultFocusNavigation key)
  | none => (false, defaultFocusNavigation key)

end GfxWidget

/-- A process: the static members of `GfxWindow` and the surfaces alive in
it, by identity. -/
structure Process where
  statics : GfxStatics
  surfaces : Nat → GfxWindow

namespace Process

/-- A call of the static `GfxWindow::SetDefaultClearColor` in the process. -/
def SetDefaultClearColor (color : gfx.Color4f) (p : Process) : Process :=
  { p with statics := GfxWindow.SetDefaultClearColor color p.statics }

/-- A call of the static `GfxWindow::GetDefaultClearColor` in the process. -/
def GetDefaultClearColor (p : Process) : gfx.Color4f :=
  GfxWindow.GetDefaultClearColor p.statics

/-- A call of a member function on the surface `i`: it acts on that object. -/
def onSurface (i : Nat) (f : GfxWindow → GfxWindow) (p : Process) : Process :=
  { p with surfaces := Function.update p.surfaces i (f (p.surfaces i)) }

/-- The clear colour the surface `i` paints with. -/
def GetCurrentClearColor (p : Process) (i : Nat) : gfx.Color4f :=
  GfxWindow.GetCurrentClearColor p.statics (p.surfaces i)

end Process

/-- The fields of `AppSettings` the settings dialog binds (dlgsettings.cpp,
lines 94-118 and 165-189). -/
inductive AppSettingsField where
  | image_editor_executable
  | image_editor_arguments
  | shader_editor_executable
  | shader_editor_arguments
  | script_editor_executable
  | script_editor_arguments
  | audio_editor_executable
  | audio_editor_arguments
  | default_open_win_or_tab
  | style_name
  | frame_delay
  | mouse_cursor
  | main_tab_position
  | save_automatically_on_play
  | vsync
  | python_executable
  | emsdk
  | clear_color
  | grid_color
  | vcs_executable
  | vcs_cmd_add_file
  | vcs_cmd_del_file
  | vcs_cmd_commit_file
  | vcs_cmd_list_files
  | vcs_ignore_list
  | other (n : Nat)
deriving DecidableEq

/-- The fields of `MainWidget::UISettings` the settings dialog binds
(lines 120-125 and 191-196). -/
inductive UISettingsField where
  | grid
  | zoom
  | show_grid
  | show_origin
  | show_viewport
  | snap_to_grid
  | other (n : Nat)
deriving DecidableEq

/-- The fields of `ScriptWidget::Settings` the settings dialog binds
(lines 128-140 and 198-210); the last eight are members of its
`editor_settings`. -/
inductive ScriptSettingsField where
  | theme
  | lua_formatter_exec
  | lua_formatter_args
  | lua_format_on_save
  | use_code_heuristics
  | keymap
  | use_code_completer
  | show_line_numbers
  | highlight_current_line
  | highlight_syntax
  | replace_tabs_with_spaces
  | font_size
  | font_description
  | other (n : Nat)
deriving DecidableEq

/-- A field of one of the three settings objects the dialog holds by
reference: `mSettings`, `mWidgetSettings`, `mScriptSettings`. -/
inductive Field where
  | mSettings (f : AppSettingsField)
  | mWidgetSettings (f : UISettingsField)
  | mScriptSettings (f : ScriptSettingsField)
deriving DecidableEq

/-- The controls of `mUI` the settings dialog binds to a settings field. -/
inductive Control where
  | edtImageEditorExecutable
  | edtImageEditorArguments
  | edtShaderEditorExecutable
  | edtShaderEditorArguments
  | edtScriptEditorExecutable
  | edtScriptEditorArguments
  | edtAudioEditorExecutable
  | edtAudioEditorArguments
  | cmbWinOrTab
  | cmbStyle
  | spinFrameDelay
  | cmbMouseCursor
  | cmbTabPosition
  | chkSaveAutomatically
  | chkVSYNC
  | edtPythonExecutable
  | edtEmscriptenPath
  | clearColor
  | gridColor
  | vcsExecutable
  | vcsAddFile
  | vcsDelFile
  | vcsCommitFile
  | vcsListFiles
  | vcsIgnoreList
  | cmbGrid
  | zoom
  | chkShowGrid
  | chkShowOrigin
  | chkShowViewport
  | chkSnapToGrid
  | editorTheme
  | edtLuaFormatterExec
  | edtLuaFormatterArgs
  | editorFormatOnSave
  | chkUseCodeHeuristics
  | cmbKeymap
  | chkUseCodeCompletion
  | editorShowLineNumbers
  | editorHightlightCurrentLine
  | editorHightlightSyntax
  | editorInsertSpaces
  | editorFontSize
  | editorFontName
deriving DecidableEq

/-- The caller's three settings objects, each a valuation of its fields. The
value type `V` stands for the field types (`AppSettings`,
`ScriptWidget::Settings` and `MainWidget::UISettings` are declared outside
the sources). -/
structure Settings (V : Type) where
  mSettings : AppSettingsField → V
  mScriptSettings : ScriptSettingsField → V
  mWidgetSettings : UISettingsField → V

/-- Read a field of the settings objects. -/
def Settings.get {V : Type} (s : Settings V) : Field → V
  | Field.mSettings f => s.mSettings f
  | Field.mWidgetSettings f => s.mWidgetSettings f
  | Field.mScriptSettings f => s.mScriptSettings f

/-- Assign a field of the settings objects. -/
def Settings.set {V : Type} (s : Settings V) : Field → V → Settings V
  | Field.mSettings f, v => { s with mSettings := Function.update s.mSettings f v }
  | Field.mWidgetSettings f, v => { s with mWidgetSettings := Function.update s.mWidgetSettings f v }
  | Field.mScriptSettings f, v => { s with mScriptSettings := Function.update s.mScriptSettings f v }

/-- The helpers `SetUIValue` and `GetUIValue` of `editor/gui/utility.h`, which
is not among the sources, taken as parameters: how a control of widget state
`W` takes a value and how the value is read back from it. -/
structure UICodec (V W : Type) where
  store : Control → V → W → W
  load : Control → W → V

/-- The call `SetUIValue(mUI.control, value)`: it acts on that one control. -/
def SetUIValue {V W : Type} (codec : UICodec V W) (ui : Control → W) (control : Control)
    (value : V) : Control → W :=
  Function.update ui control (codec.store control value (ui control))

/-- The call `GetUIValue(mUI.control, &out)`: the value read from the control. -/
def GetUIValue {V W : Type} (codec : UICodec V W) (ui : Control → W) (control : Control) : V :=
  codec.load control (ui control)

/-- The `SetUIValue` calls of the `DlgSettings` constructor
(dlgsettings.cpp, lines 94-140), in source order. -/
def ctorBindings : List (Control × Field) :=
  [ (Control.edtImageEditorExecutable, Field.mSettings AppSettingsField.image_editor_executable),
    (Control.edtImageEditorArguments, Field.mSettings AppSettingsField.image_editor_arguments),
    (Control.edtShaderEditorExecutable, Field.mSettings AppSettingsField.shader_editor_executable),
    (Control.edtShaderEditorArguments, Field.mSettings AppSettingsField.shader_editor_arguments),
    (Control.edtScriptEditorExecutable, Field.mSettings AppSettingsField.script_editor_executable),
    (Control.edtScriptEditorArguments, Field.mSettings AppSettingsField.script_editor_arguments),
    (Control.edtAudioEditorExecutable, Field.mSettings AppSettingsField.audio_editor_executable),
    (Control.edtAudioEditorArguments, Field.mSettings AppSettingsField.audio_editor_arguments),
    (Control.cmbWinOrTab, Field.mSettings AppSettingsField.default_open_win_or_tab),
    (Control.cmbStyle, Field.mSettings AppSettingsField.style_name),
    (Control.spinFrameDelay, Field.mSettings AppSettingsField.frame_delay),
    (Control.cmbMouseCursor, Field.mSettings AppSettingsField.mouse_cursor),
    (Control.cmbTabPosition, Field.mSettings AppSettingsField.main_tab_position),
    (Control.chkSaveAutomatically, Field.mSettings AppSettingsField.save_automatically_on_play),
    (Control.chkVSYNC, Field.mSettings AppSettingsField.vsync),
    (Control.edtPythonExecutable, Field.mSettings AppSettingsField.python_executable),
    (Control.edtEmscriptenPath, Field.mSettings AppSettingsField.emsdk),
    (Control.clearColor, Field.mSettings AppSettingsField.clear_color),
    (Control.gridColor, Field.mSettings AppSettingsField.grid_color),
    (Control.vcsExecutable, Field.mSettings AppSettingsField.vcs_executable),
    (Control.vcsAddFile, Field.mSettings AppSettingsField.vcs_cmd_add_file),
    (Control.vcsDelFile, Field.mSettings AppSettingsField.vcs_cmd_del_file),
    (Control.vcsCommitFile, Field.mSettings AppSettingsField.vcs_cmd_commit_file),
    (Control.vcsListFiles, Field.mSettings AppSettingsField.vcs_cmd_list_files),
    (Control.vcsIgnoreList, Field.mSettings AppSettingsField.vcs_ignore_list),
    (Control.cmbGrid, Field.mWidgetSettings UISettingsField.grid),
    (Control.zoom, Field.mWidgetSettings UISettingsField.zoom),
    (Control.chkShowGrid, Field.mWidgetSettings UISettingsField.show_grid),
    (Control.chkShowOrigin, Field.mWidgetSettings UISettingsField.show_origin),
    (Control.chkShowViewport, Field.mWidgetSettings UISettingsField.show_viewport),
    (Control.chkSnapToGrid, Field.mWidgetSettings UISettingsField.snap_to_grid),
    (Control.editorTheme, Field.mScriptSettings ScriptSettingsField.theme),
    (Control.edtLuaFormatterExec, Field.mScriptSettings ScriptSettingsField.lua_formatter_exec),
    (Control.edtLuaFormatterArgs, Field.mScriptSettings ScriptSettingsField.lua_formatter_args),
    (Control.editorFormatOnSave, Field.mScriptSettings ScriptSettingsField.lua_format_on_save),
    (Control.chkUseCodeHeuristics, Field.mScriptSettings ScriptSettingsField.use_code_heuristics),
    (Control.cmbKeymap, Field.mScriptSettings ScriptSettingsField.keymap),
    (Control.chkUseCodeCompletion, Field.mScriptSettings ScriptSettingsField.use_code_completer),
    (Control.editorShowLineNumbers, Field.mScriptSettings ScriptSettingsField.show_line_numbers),
    (Control.editorHightlightCurrentLine,
      Field.mScriptSettings ScriptSettingsField.highlight_current_line),
    (Control.editorHightlightSyntax, Field.mScriptSettings ScriptSettingsField.highlight_syntax),
    (Control.editorInsertSpaces,
      Field.mScriptSettings ScriptSettingsField.replace_tabs_with_spaces),
    (Control.editorFontSize, Field.mScriptSettings ScriptSettingsField.font_size),
    (Control.editorFontName, Field.mScriptSettings ScriptSettingsField.font_description) ]

/-- The `GetUIValue` calls of `DlgSettings::on_btnAccept_clicked`
(dlgsettings.cpp, lines 165-210), in source order. -/
def acceptBindings : List (Control × Field) :=
  [ (Control.edtImageEditorExecutable, Field.mSettings AppSettingsField.image_editor_executable),
    (Control.edtImageEditorArguments, Field.mSettings AppSettingsField.image_editor_arguments),
    (Control.edtShaderEditorExecutable, Field.mSettings AppSettingsField.shader_editor_executable),
    (Control.edtShaderEditorArguments, Field.mSettings AppSettingsField.shader_editor_arguments),
    (Control.edtScriptEditorExecutable, Field.mSettings AppSettingsField.script_editor_executable),
    (Control.edtScriptEditorArguments, Field.mSettings AppSettingsField.script_editor_arguments),
    (Control.edtAudioEditorExecutable, Field.mSettings AppSettingsField.audio_editor_executable),
    (Control.edtAudioEditorArguments, Field.mSettings AppSettingsField.audio_editor_arguments),
    (Control.cmbWinOrTab, Field.mSettings AppSettingsField.default_open_win_or_tab),
    (Control.cmbStyle, Field.mSettings AppSettingsField.style_name),
    (Control.chkSaveAutomatically, Field.mSettings AppSettingsField.save_automatically_on_play),
    (Control.spinFrameDelay, Field.mSettings AppSettingsField.frame_delay),
    (Control.cmbMouseCursor, Field.mSettings AppSettingsField.mouse_cursor),
    (Control.cmbTabPosition, Field.mSettings AppSettingsField.main_tab_position),
    (Control.chkVSYNC, Field.mSettings AppSettingsField.vsync),
    (Control.edtPythonExecutable, Field.mSettings AppSettingsField.python_executable),
    (Control.edtEmscriptenPath, Field.mSettings AppSettingsField.emsdk),
    (Control.clearColor, Field.mSettings AppSettingsField.clear_color),
    (Control.gridColor, Field.mSettings AppSettingsField.grid_color),
    (Control.vcsExecutable, Field.mSettings AppSettingsField.vcs_executable),
    (Control.vcsAddFile, Field.mSettings AppSettingsField.vcs_cmd_add_file),
    (Control.vcsDelFile, Field.mSettings AppSettingsField.vcs_cmd_del_file),
    (Control.vcsCommitFile, Field.mSettings AppSettingsField.vcs_cmd_commit_file),
    (Control.vcsListFiles, Field.mSettings AppSettingsField.vcs_cmd_list_files),
    (Control.vcsIgnoreList, Field.mSettings AppSettingsField.vcs_ignore_list),
    (Control.cmbGrid, Field.mWidgetSettings UISettingsField.grid),
    (Control.zoom, Field.mWidgetSettings UISettingsField.zoom),
    (Control.chkShowGrid, Field.mWidgetSettings UISettingsField.show_grid),
    (Control.chkShowOrigin, Field.mWidgetSettings UISettingsField.show_origin),
    (Control.chkShowViewport, Field.mWidgetSettings UISettingsField.show_viewport),
    (Control.chkSnapToGrid, Field.mWidgetSettings UISettingsField.snap_to_grid),
    (Control.editorTheme, Field.mScriptSettings ScriptSettingsField.theme),
    (Control.edtLuaFormatterExec, Field.mScriptSettings ScriptSettingsField.lua_formatter_exec),
    (Control.edtLuaFormatterArgs, Field.mScriptSettings ScriptSettingsField.lua_formatter_args),
    (Control.editorFormatOnSave, Field.mScriptSettings ScriptSettingsField.lua_format_on_save),
    (Control.chkUseCodeHeuristics, Field.mScriptSettings ScriptSettingsField.use_code_heuristics),
    (Control.cmbKeymap, Field.mScriptSettings ScriptSettingsField.keymap),
    (Control.chkUseCodeCompletion, Field.mScriptSettings ScriptSettingsField.use_code_completer),
    (Control.editorShowLineNumbers, Field.mScriptSettings ScriptSettingsField.show_line_numbers),
    (Control.editorHightlightCurrentLine,
      Field.mScriptSettings ScriptSettingsField.highlight_current_line),
    (Control.editorHightlightSyntax, Field.mScriptSettings ScriptSettingsField.highlight_syntax),
    (Control.editorInsertSpaces,
      Field.mScriptSettings ScriptSettingsField.replace_tabs_with_spaces),
    (Control.editorFontSize, Field.mScriptSettings ScriptSettingsField.font_size),
    (Control.editorFontName, Field.mScriptSettings ScriptSettingsField.font_description) ]

/-- The result code of the dialog: `accept()` or `reject()` was called. -/
inductive DialogCode where
  | Rejected
  | Accepted
deriving DecidableEq

/-- The class `DlgSettings`: the bound controls of `mUI`, the caller's settings
objects it holds by reference, and the result code once the dialog is closed. -/
structure DlgSettings (V W : Type) where
  mUI : Control → W
  settings : Settings V
  result : Option DialogCode

namespace DlgSettings

/-- The constructor `DlgSettings::DlgSettings` (lines 93-140): starting from
the controls as `setupUi` and the populate calls left them, each bound control
takes the value of its settings field. The settings objects are read only. -/
def construct {V W : Type} (codec : UICodec V W) (ui : Control → W) (s : Settings V) :
    DlgSettings V W :=
  { mUI := ctorBindings.foldl (fun acc b => SetUIValue codec acc b.1 (s.get b.2)) ui
    settings := s
    result := none }

/-- `DlgSettings::on_btnAccept_clicked` (lines 162-213): each bound field takes
the value read from its control, then `accept()`. -/
def on_btnAccept_clicked {V W : Type} (codec : UICodec V W) (d : DlgSettings V W) :
    DlgSettings V W :=
  { d with
    settings := acceptBindings.foldl (fun acc b => acc.set b.2 (GetUIValue codec d.mUI b.1)) d.settings
    result := some DialogCode.Accepted }

end DlgSettings

/-- The Qt colour type `QColor`, by its four integer channels. -/
structure QColor where
  red : Nat
  green : Nat
  blue : Nat
  alpha : Nat
deriving DecidableEq

/-- The values the dialog moves between a settings field and a control: a
`QString`, a `bool`, an integer (numbers and enum ordinals), a `float` and a
`QColor`. -/
inductive UIValue where
  | text (s : String)
  | flag (b : Bool)
  | number (n : Int)
  | real (q : ℚ)
  | color (c : QColor)
deriving DecidableEq

/-- The Qt class `QLineEdit`, by its text and cursor position. -/
structure QLineEdit where
  text : String
  cursorPosition : Nat
deriving DecidableEq

/-- `QLineEdit::setText`: the text is replaced and the cursor moves to the end
of it. -/
def QLineEdit.setText (s : String) (_e : QLineEdit) : QLineEdit :=
  { text := s, cursorPosition := s.length }

/-- `QLineEdit::setCursorPosition`: the cursor moves, within the text. -/
def QLineEdit.setCursorPosition (n : Nat) (e : QLineEdit) : QLineEdit :=
  { e with cursorPosition := min n e.text.length }

/-- The state of a control of `mUI`: a line edit, or any other control by the
value it holds. -/
inductive Widget where
  | lineEdit (e : QLineEdit)
  | holding (value : UIValue)
deriving DecidableEq

/-- The call `control->setText(s)` on a control of `mUI`; the C++ types allow
it on a line edit only. -/
def Widget.setText (s : String) : Widget → Widget
  | Widget.lineEdit e => Widget.lineEdit (e.setText s)
  | w => w

/-- The call `control->setCursorPosition(n)` on a control of `mUI`; the C++
types allow it on a line edit only. -/
def Widget.setCursorPosition (n : Nat) : Widget → Widget
  | Widget.lineEdit e => Widget.lineEdit (e.setCursorPosition n)
  | w => w

/-- The Qt function `QDir::toNativeSeparators`: under Windows every slash
becomes a backslash, elsewhere the path is returned as it is. -/
def QDir.toNativeSeparators (windows : Bool) (pathName : String) : String :=
  if windows then pathName.map (fun ch => if ch = '/' then Char.ofNat 92 else ch)
  else pathName

/-- The members of `TextEditor::Settings` the dialog names (dlgsettings.cpp,
lines 133-152 and 203-210); `other` stands for the members it never names. -/
inductive TextEditorField where
  | keymap
  | use_code_completer
  | show_line_numbers
  | highlight_current_line
  | highlight_syntax
  | replace_tabs_with_spaces
  | font_size
  | font_description
  | other (n : Nat)
deriving DecidableEq

/-- The preview editor `mUI.code` (class `TextEditor`, declared outside the
sources), by what the dialog does to it: the settings given by `SetSettings`,
the settings put in effect by `ApplySettings`, and the repaints requested by
`update`. -/
structure TextEditor where
  mSettings : TextEditorField → UIValue
  mApplied : TextEditorField → UIValue
  mUpdates : Nat

/-- The call `mUI.code->SetSettings(settings)`. -/
def TextEditor.SetSettings (settings : TextEditorField → UIValue) (e : TextEditor) : TextEditor :=
  { e with mSettings := settings }

/-- The call `mUI.code->ApplySettings()`. -/
def TextEditor.ApplySettings (e : TextEditor) : TextEditor :=
  { e with mApplied := e.mSettings }

/-- The call `mUI.code->update()`. -/
def TextEditor.update (e : TextEditor) : TextEditor :=
  { e with mUpdates := e.mUpdates + 1 }

/-- The sample document `mSampleCode`, by the highlight applied to it: the
theme of the highlight, or none. -/
structure SampleCode where
  highlight : Option String
deriving DecidableEq

/-- The member `mAssistant` (declared outside the sources), by its theme. -/
structure CodeAssistant where
  mTheme : String
deriving DecidableEq

/-- The call `mAssistant.SetTheme(theme)`. -/
def CodeAssistant.SetTheme (theme : String) (_a : CodeAssistant) : CodeAssistant :=
  { mTheme := theme }

/-- The call `mAssistant.ApplyHighlight(mSampleCode)`: the document is
highlighted under the assistant's theme. -/
def CodeAssistant.ApplyHighlight (a : CodeAssistant) (_doc : SampleCode) : SampleCode :=
  { highlight := some a.mTheme }

/-- The call `mAssistant.RemoveHighlight(mSampleCode)`. -/
def CodeAssistant.RemoveHighlight (_a : CodeAssistant) (_doc : SampleCode) : SampleCode :=
  { highlight := none }

/-- What the handlers of the dialog take from outside the sources: the helpers
`SetUIValue` and `GetUIValue` of `editor/gui/utility.h`, a default-constructed
`TextEditor::Settings`, and whether `WINDOWS_OS` is defined. -/
structure Toolkit where
  codec : UICodec UIValue Widget
  editorDefaults : TextEditorField → UIValue
  windows : Bool

/-- A callback posted with `QTimer::singleShot(0, this, ...)`: the two lambdas
of dlgsettings.cpp (lines 339-341 and 358-360) both run `UpdateSampleCode()`. -/
inductive Deferred where
  | UpdateSampleCode
deriving DecidableEq

/-- The class `DlgSettings` with the members its slots touch besides the bound
controls: the preview editor `mUI.code`, `mAssistant`, `mSampleCode`, and the
zero-delay callbacks posted to the event loop and not yet run. -/
structure SettingsDialog extends DlgSettings UIValue Widget where
  code : TextEditor
  mAssistant : CodeAssistant
  mSampleCode : SampleCode
  timers : List Deferred

namespace SettingsDialog

/-- `DlgSettings::UpdateSampleCode` (lines 143-160). -/
def UpdateSampleCode (tk : Toolkit) (d : SettingsDialog) : SettingsDialog :=
  let editor_settings : TextEditorField → UIValue := tk.editorDefaults
  let editor_settings := Function.update editor_settings TextEditorField.use_code_completer
    (GetUIValue tk.codec d.mUI Control.chkUseCodeCompletion)
  let editor_settings := Function.update editor_settings TextEditorField.show_line_numbers
    (GetUIValue tk.codec d.mUI Control.editorShowLineNumbers)
  let editor_settings := Function.update editor_settings TextEditorField.highlight_current_line
    (GetUIValue tk.codec d.mUI Control.editorHightlightCurrentLine)
  let editor_settings := Function.update editor_settings TextEditorField.highlight_syntax
    (GetUIValue tk.codec d.mUI Control.editorHightlightSyntax)
  let editor_settings := Function.update editor_settings TextEditorField.replace_tabs_with_spaces
    (GetUIValue tk.codec d.mUI Control.editorInsertSpaces)
  let editor_settings := Function.update editor_settings TextEditorField.font_size
    (GetUIValue tk.codec d.mUI Control.editorFontSize)
  let editor_settings := Function.update editor_settings TextEditorField.font_description
    (GetUIValue tk.codec d.mUI Control.editorFontName)
  let code := (d.code.SetSettings editor_settings).ApplySettings
  let sample :=
    if editor_settings TextEditorField.highlight_syntax = UIValue.flag true then
      d.mAssistant.ApplyHighlight d.mSampleCode
    else d.mAssistant.RemoveHighlight d.mSampleCode
  { d with code := code.update, mSampleCode := sample }

/-- `DlgSettings::on_btnAccept_clicked` (lines 162-213) on the whole dialog. -/
def on_btnAccept_clicked (tk : Toolkit) (d : SettingsDialog) : SettingsDialog :=
  { d with toDlgSettings := DlgSettings.on_btnAccept_clicked tk.codec d.toDlgSettings }

/-- `DlgSettings::on_btnCancel_clicked` (lines 214-217): `reject()`. -/
def on_btnCancel_clicked (d : SettingsDialog) : SettingsDialog :=
  { d with result := some DialogCode.Rejected }

/-- The common body of the six `on_btnSelect..._clicked` slots: return when the
picker gave an empty string, else `setText(QDir::toNativeSeparators(...))` and
`setCursorPosition(0)` on the slot's line edit. -/
def selectPath (tk : Toolkit) (control : Control) (chosen : String) (d : SettingsDialog) :
    SettingsDialog :=
  if chosen = "" then d
  else
    { d with
      mUI := Function.update d.mUI control
        (((d.mUI control).setText (QDir.toNativeSeparators tk.windows chosen)).setCursorPosition 0) }

/-- `DlgSettings::on_btnSelectImageEditor_clicked` (lines 219-235); `executable`
is what `QFileDialog::getOpenFileName` returned. -/
def on_btnSelectImageEditor_clicked (tk : Toolkit) (executable : String) (d : SettingsDialog) :
    SettingsDialog :=
  selectPath tk Control.edtImageEditorExecutable executable d

/-- `DlgSettings::on_btnSelectShaderEditor_clicked` (lines 237-253). -/
def on_btnSelectShaderEditor_clicked (tk : Toolkit) (executable : String) (d : SettingsDialog) :
    SettingsDialog :=
  selectPath tk Control.edtShaderEditorExecutable executable d

/-- `DlgSettings::on_btnSelectScriptEditor_clicked` (lines 255-271). -/
def on_btnSelectScriptEditor_clicked (tk : Toolkit) (executable : String) (d : SettingsDialog) :
    SettingsDialog :=
  selectPath tk Control.edtScriptEditorExecutable executable d

/-- `DlgSettings::on_btnSelectAudioEditor_clicked` (lines 273-289). -/
def on_btnSelectAudioEditor_clicked (tk : Toolkit) (executable : String) (d : SettingsDialog) :
    SettingsDialog :=
  selectPath tk Control.edtAudioEditorExecutable executable d

/-- `DlgSettings::on_btnSelectPython_clicked` (lines 291-309). -/
def on_btnSelectPython_clicked (tk : Toolkit) (executable : String) (d : SettingsDialog) :
    SettingsDialog :=
  selectPath tk Control.edtPythonExecutable executable d

/-- `DlgSettings::on_btnSelectEmsdk_clicked` (lines 310-319); `dir` is what
`QFileDialog::getExistingDirectory` returned. -/
def on_btnSelectEmsdk_clicked (tk : Toolkit) (dir : String) (d : SettingsDialog) :
    SettingsDialog :=
  selectPath tk Control.edtEmscriptenPath dir d

/-- `DlgSettings::on_btnResetClearColor_clicked` (lines 321-325). -/
def on_btnResetClearColor_clicked (tk : Toolkit) (d : SettingsDialog) : SettingsDialog :=
  let color : QColor := ⟨0x23, 0x23, 0x23, 255⟩
  { d with mUI := SetUIValue tk.codec d.mUI Control.clearColor (UIValue.color color) }

/-- `DlgSettings::on_btnResetGridColor_clicked` (lines 327-331). -/
def on_btnResetGridColor_clicked (tk : Toolkit) (d : SettingsDialog) : SettingsDialog :=
  let color : QColor := ⟨0xe3, 0xe3, 0xe3, 50⟩
  { d with mUI := SetUIValue tk.codec d.mUI Control.gridColor (UIValue.color color) }

/-- The call `QTimer::singleShot(0, this, callback)`: the callback is queued
behind the ones already posted. -/
def singleShot (callback : Deferred) (d : SettingsDialog) : SettingsDialog :=
  { d with timers := d.timers ++ [callback] }

/-- `DlgSettings::on_editorFontName_currentIndexChanged` (lines 333-343). -/
def on_editorFontName_currentIndexChanged (_tk : Toolkit) (d : SettingsDialog) : SettingsDialog :=
  singleShot Deferred.UpdateSampleCode d

/-- `DlgSettings::on_editorFontSize_currentIndexChanged` (lines 344-347). -/
def on_editorFontSize_currentIndexChanged (tk : Toolkit) (d : SettingsDialog) : SettingsDialog :=
  UpdateSampleCode tk d

/-- `DlgSettings::on_editorHightlightSyntax_stateChanged` (lines 348-351). -/
def on_editorHightlightSyntax_stateChanged (tk : Toolkit) (d : SettingsDialog) : SettingsDialog :=
  UpdateSampleCode tk d

/-- `DlgSettings::on_editorHightlightCurrentLine_stateChanged` (lines 352-355). -/
def on_editorHightlightCurrentLine_stateChanged (tk : Toolkit) (d : SettingsDialog) :
    SettingsDialog :=
  UpdateSampleCode tk d

/-- `DlgSettings::on_editorShowLineNumbers_stateChanged` (lines 356-363). -/
def on_editorShowLineNumbers_stateChanged (_tk : Toolkit) (d : SettingsDialog) : SettingsDialog :=
  singleShot Deferred.UpdateSampleCode d

/-- `DlgSettings::on_editorInsertSpaces_stateChanged` (lines 364-367). -/
def on_editorInsertSpaces_stateChanged (tk : Toolkit) (d : SettingsDialog) : SettingsDialog :=
  UpdateSampleCode tk d

/-- One turn of the event loop: the zero-delay callback posted first, if any,
is taken off the queue and run. -/
def runTimer (tk : Toolkit) (d : SettingsDialog) : SettingsDialog :=
  match d.timers with
  | [] => d
  | Deferred.UpdateSampleCode :: rest => UpdateSampleCode tk { d with timers := rest }

/-- The lambda connected to `editorTheme`'s `currentTextChanged` in the
constructor (lines 87-91). -/
def editorTheme_currentTextChanged (theme : String) (d : SettingsDialog) : SettingsDialog :=
  let assistant := d.mAssistant.SetTheme theme
  { d with
    mAssistant := assistant
    mSampleCode := assistant.ApplyHighlight (assistant.RemoveHighlight d.mSampleCode) }

end SettingsDialog

/-- The six change handlers of the editor controls (lines 333-367). -/
inductive EditorHandler where
  | editorFontName_currentIndexChanged
  | editorFontSize_currentIndexChanged
  | editorHightlightSyntax_stateChanged
  | editorHightlightCurrentLine_stateChanged
  | editorShowLineNumbers_stateChanged
  | editorInsertSpaces_stateChanged
deriving DecidableEq

/-- The slot a change handler names. -/
def EditorHandler.run (tk : Toolkit) : EditorHandler → SettingsDialog → SettingsDialog
  | EditorHandler.editorFontName_currentIndexChanged =>
    SettingsDialog.on_editorFontName_currentIndexChanged tk
  | EditorHandler.editorFontSize_currentIndexChanged =>
    SettingsDialog.on_editorFontSize_currentIndexChanged tk
  | EditorHandler.editorHightlightSyntax_stateChanged =>
    SettingsDialog.on_editorHightlightSyntax_stateChanged tk
  | EditorHandler.editorHightlightCurrentLine_stateChanged =>
    SettingsDialog.on_editorHightlightCurrentLine_stateChanged tk
  | EditorHandler.editorShowLineNumbers_stateChanged =>
    SettingsDialog.on_editorShowLineNumbers_stateChanged tk
  | EditorHandler.editorInsertSpaces_stateChanged =>
    SettingsDialog.on_editorInsertSpaces_stateChanged tk

/-- The six file and directory picker buttons (lines 219-319). -/
inductive Picker where
  | btnSelectImageEditor
  | btnSelectShaderEditor
  | btnSelectScriptEditor
  | btnSelectAudioEditor
  | btnSelectPython
  | btnSelectEmsdk
deriving DecidableEq

/-- The line edit a picker button fills. -/
def Picker.control : Picker → Control
  | Picker.btnSelectImageEditor => Control.edtImageEditorExecutable
  | Picker.btnSelectShaderEditor => Control.edtShaderEditorExecutable
  | Picker.btnSelectScriptEditor => Control.edtScriptEditorExecutable
  | Picker.btnSelectAudioEditor => Control.edtAudioEditorExecutable
  | Picker.btnSelectPython => Control.edtPythonExecutable
  | Picker.btnSelectEmsdk => Control.edtEmscriptenPath

/-- The slot of a picker button, given what the picker returned. -/
def Picker.clicked (tk : Toolkit) : Picker → String → SettingsDialog → SettingsDialog
  | Picker.btnSelectImageEditor => SettingsDialog.on_btnSelectImageEditor_clicked tk
  | Picker.btnSelectShaderEditor => SettingsDialog.on_btnSelectShaderEditor_clicked tk
  | Picker.btnSelectScriptEditor => SettingsDialog.on_btnSelectScriptEditor_clicked tk
  | Picker.btnSelectAudioEditor => SettingsDialog.on_btnSelectAudioEditor_clicked tk
  | Picker.btnSelectPython => SettingsDialog.on_btnSelectPython_clicked tk
  | Picker.btnSelectEmsdk => SettingsDialog.on_btnSelectEmsdk_clicked tk

/-- An interaction with the open dialog: a button, a change of an editor
control, a direct call of `UpdateSampleCode`, a turn of the event loop, a
change of theme, or the user editing a control. -/
inductive Interaction where
  | btnAccept
  | btnCancel
  | select (picker : Picker) (chosen : String)
  | btnResetClearColor
  | btnResetGridColor
  | editorChanged (handler : EditorHandler)
  | UpdateSampleCode
  | eventLoopTurn
  | themeChanged (theme : String)
  | userEdit (control : Control) (state : Widget)
deriving DecidableEq

/-- What an interaction does to the dialog. -/
def Interaction.step (tk : Toolkit) : Interaction → SettingsDialog → SettingsDialog
  | Interaction.btnAccept, d => d.on_btnAccept_clicked tk
  | Interaction.btnCancel, d => d.on_btnCancel_clicked
  | Interaction.select picker chosen, d => picker.clicked tk chosen d
  | Interaction.btnResetClearColor, d => d.on_btnResetClearColor_clicked tk
  | Interaction.btnResetGridColor, d => d.on_btnResetGridColor_clicked tk
  | Interaction.editorChanged handler, d => handler.run tk d
  | Interaction.UpdateSampleCode, d => d.UpdateSampleCode tk
  | Interaction.eventLoopTurn, d => d.runTimer tk
  | Interaction.themeChanged theme, d => d.editorTheme_currentTextChanged theme
  | Interaction.userEdit control state, d => { d with mUI := Function.update d.mUI control state }

/-- A run of interactions, in order. -/
def interact (tk : Toolkit) (steps : List Interaction) (d : SettingsDialog) : SettingsDialog :=
  steps.foldl (fun acc i => i.step tk acc) d

/-- A toolkit whose controls hold the value they are given and whose line
edits hold text, with every editor setting defaulting to false; used to check
the models on concrete inputs. -/
def plainToolkit : Toolkit :=
  { codec :=
      { store := fun _ v w =>
          match v, w with
          | UIValue.text s, Widget.lineEdit _ => Widget.lineEdit ⟨s, 0⟩
          | v, _ => Widget.holding v
        load := fun _ w =>
          match w with
          | Widget.lineEdit e => UIValue.text e.text
          | Widget.holding v => v }
    editorDefaults := fun _ => UIValue.flag false
    windows := false }

/-- A dialog whose six path controls are empty line edits and whose other
controls hold false, over settings that hold the number 7; used to check the
models on concrete inputs. -/
def plainDialog : SettingsDialog :=
  { mUI := fun c =>
      if c ∈ [Control.edtImageEditorExecutable, Control.edtShaderEditorExecutable,
        Control.edtScriptEditorExecutable, Control.edtAudioEditorExecutable,
        Control.edtPythonExecutable, Control.edtEmscriptenPath]
      then Widget.lineEdit ⟨"", 0⟩ else Widget.holding (UIValue.flag false)
    settings := ⟨fun _ => UIValue.number 7, fun _ => UIValue.number 7, fun _ => UIValue.number 7⟩
    result := none
    code := ⟨fun _ => UIValue.flag false, fun _ => UIValue.flag false, 0⟩
    mAssistant := ⟨"Monokai"⟩
    mSampleCode := ⟨some "Monokai"⟩
    timers := [] }

end gui

/-! ## Theorems: the clear colour of a surface -/

namespace gui

/-- C1: for every surface `w`, every process-wide default colour `d` and every
colour `c`: after `SetClearColor(c)` the effective clear colour
(`GetCurrentClearColor`) equals `c`, so it differs from `d` whenever `c` does;
after a subsequent `ResetClearColor()` the effective clear colour equals `d`;
and a paint cycle of a ready surface clears with `c`, respectively `d`. -/
theorem setClearColor_overrides_default (g : GfxStatics) (w : GfxWindow) (d c : gfx.Color4f) :
    GfxWindow.GetCurrentClearColor (GfxWindow.SetDefaultClearColor d g) (w.SetClearColor c) = c ∧
    (c ≠ d →
      GfxWindow.GetCurrentClearColor (GfxWindow.SetDefaultClearColor d g) (w.SetClearColor c) ≠
        GfxWindow.GetDefaultClearColor (GfxWindow.SetDefaultClearColor d g)) ∧
    GfxWindow.GetCurrentClearColor (GfxWindow.SetDefaultClearColor d g)
      (w.SetClearColor c).ResetClearColor = d ∧
    GfxWindow.GetDefaultClearColor (GfxWindow.SetDefaultClearColor d g) = d ∧
    (∀ (policy : GfxWindow.PaintPolicy) (now : ℚ) (dv : gfx.Device) (pt : gfx.Painter) (cx : Unit),
      w.mCustomGraphicsDevice = some dv → w.mCustomGraphicsPainter = some pt →
      w.mContext = some cx →
      (GfxWindow.triggerPaint policy (GfxWindow.SetDefaultClearColor d g) now
          (w.SetClearColor c)).2.head? = some (gfx.DeviceCall.clearColor c) ∧
      (GfxWindow.triggerPaint policy (GfxWindow.SetDefaultClearColor d g) now
          (w.SetClearColor c).ResetClearColor).2.head? = some (gfx.DeviceCall.clearColor d)) := by
  refine ⟨rfl, ?_, rfl, rfl, ?_⟩
  · intro hcd
    exact hcd
  · intro policy now dv pt cx hdv hpt hcx
    simp [GfxWindow.triggerPaint, GfxWindow.paintGL, GfxWindow.SetClearColor,
      GfxWindow.ResetClearColor, GfxWindow.GetCurrentClearColor, GfxWindow.SetDefaultClearColor,
      hdv, hpt, hcx]

/-- Witness of C1 at the default RGBA(0x23,0x23,0x23,255) and an opaque red
override on a default-constructed surface. -/
theorem setClearColor_overrides_default_witness :
    gfx.Color4f.ofRGBA 255 0 0 255 ≠ gfx.Color4f.ofRGBA 0x23 0x23 0x23 255 ∧
    GfxWindow.GetCurrentClearColor
        (GfxWindow.SetDefaultClearColor (gfx.Color4f.ofRGBA 0x23 0x23 0x23 255) ⟨0, 0, ⟨0, 0, 0, 1⟩, MouseCursor.Native⟩)
        (GfxWindow.SetClearColor (gfx.Color4f.ofRGBA 255 0 0 255) {}) ≠
      GfxWindow.GetDefaultClearColor
        (GfxWindow.SetDefaultClearColor (gfx.Color4f.ofRGBA 0x23 0x23 0x23 255) ⟨0, 0, ⟨0, 0, 0, 1⟩, MouseCursor.Native⟩) := by
  have hne : gfx.Color4f.ofRGBA 255 0 0 255 ≠ gfx.Color4f.ofRGBA 0x23 0x23 0x23 255 := by
    intro h
    have hred := congrArg gfx.Color4f.mGreen h
    norm_num [gfx.Color4f.ofRGBA] at hred
  exact ⟨hne, (setClearColor_overrides_default ⟨0, 0, ⟨0, 0, 0, 1⟩, MouseCursor.Native⟩ {}
    (gfx.Color4f.ofRGBA 0x23 0x23 0x23 255) (gfx.Color4f.ofRGBA 255 0 0 255)).2.1 hne⟩

/-- C2: the per-surface override is an optional value with a set/reset round
trip. `GetClearColor()` is null exactly when no override is stored;
`SetClearColor(c)` then `GetClearColor()` gives `c`, the last colour set
winning; `ResetClearColor()` then `GetClearColor()` gives null;
`ResetClearColor()` is idempotent; and a `GfxWidget` whose window pointer
holds the surface gives the same answers through its forwarding methods. -/
theorem clearColor_override_round_trip (w : GfxWindow) (c c₀ : gfx.Color4f) (wd : GfxWidget)
    (hwd : wd.mWindow = some w) :
    (w.GetClearColor = none ↔ w.mClearColor = none) ∧
    (w.SetClearColor c).GetClearColor = some c ∧
    ((w.SetClearColor c₀).SetClearColor c).GetClearColor = some c ∧
    w.ResetClearColor.GetClearColor = none ∧
    (w.SetClearColor c).ResetClearColor.GetClearColor = none ∧
    w.ResetClearColor.ResetClearColor = w.ResetClearColor ∧
    (wd.GetClearColor = some none ↔ w.mClearColor = none) ∧
    wd.GetClearColor = some w.GetClearColor ∧
    (wd.SetClearColor c).bind GfxWidget.GetClearColor = some (some c) ∧
    ((wd.SetClearColor c₀).bind (GfxWidget.SetClearColor c)).bind GfxWidget.GetClearColor =
      some (some c) ∧
    wd.ResetClearColor.bind GfxWidget.GetClearColor = some none ∧
    ((wd.SetClearColor c).bind GfxWidget.ResetClearColor).bind GfxWidget.GetClearColor =
      some none ∧
    wd.ResetClearColor.bind GfxWidget.ResetClearColor = wd.ResetClearColor := by
  have hget : w.GetClearColor = w.mClearColor := by
    unfold GfxWindow.GetClearColor
    cases w.mClearColor <;> rfl
  refine ⟨by rw [hget], rfl, rfl, rfl, rfl, rfl, ?_, ?_, ?_, ?_, ?_, ?_, ?_⟩
  · simp [GfxWidget.GetClearColor, hwd, hget]
  · simp [GfxWidget.GetClearColor, hwd]
  · simp [GfxWidget.SetClearColor, GfxWidget.GetClearColor, hwd, GfxWindow.SetClearColor,
      GfxWindow.GetClearColor]
  · simp [GfxWidget.SetClearColor, GfxWidget.GetClearColor, hwd, GfxWindow.SetClearColor,
      GfxWindow.GetClearColor]
  · simp [GfxWidget.ResetClearColor, GfxWidget.GetClearColor, hwd, GfxWindow.ResetClearColor,
      GfxWindow.GetClearColor]
  · simp [GfxWidget.SetClearColor, GfxWidget.ResetClearColor, GfxWidget.GetClearColor, hwd,
      GfxWindow.SetClearColor, GfxWindow.ResetClearColor, GfxWindow.GetClearColor]
  · simp [GfxWidget.ResetClearColor, hwd, GfxWindow.ResetClearColor]

/-- Witness of C2: a widget holding a default-constructed surface, with two
distinct colours. -/
theorem clearColor_override_round_trip_witness :
    (({ mWindow := some {} } : GfxWidget).SetClearColor (gfx.Color4f.ofRGBA 1 2 3 255)).bind
      GfxWidget.GetClearColor = some (some (gfx.Color4f.ofRGBA 1 2 3 255)) :=
  (clearColor_override_round_trip {} (gfx.Color4f.ofRGBA 1 2 3 255)
    (gfx.Color4f.ofRGBA 9 9 9 255) { mWindow := some {} } rfl).2.2.2.2.2.2.2.2.1

/-- C3: the default clear colour is process-wide. After
`SetDefaultClearColor(d)`, `GetDefaultClearColor()` returns `d` and any two
surfaces `i`, `j` without an override both paint with `d`; setting or
resetting the override of surface `i` changes neither the default nor the
effective colour of another surface `j`. -/
theorem default_clear_color_shared (p : Process) (d c : gfx.Color4f) (i j : Nat)
    (hi : (p.surfaces i).mClearColor = none) (hj : (p.surfaces j).mClearColor = none)
    (hij : i ≠ j) :
    (p.SetDefaultClearColor d).GetDefaultClearColor = d ∧
    (p.SetDefaultClearColor d).GetCurrentClearColor i = d ∧
    (p.SetDefaultClearColor d).GetCurrentClearColor j = d ∧
    (∀ q : Process,
      (q.onSurface i (GfxWindow.SetClearColor c)).GetDefaultClearColor = q.GetDefaultClearColor ∧
      (q.onSurface i (GfxWindow.SetClearColor c)).GetCurrentClearColor j =
        q.GetCurrentClearColor j ∧
      (q.onSurface i GfxWindow.ResetClearColor).GetDefaultClearColor = q.GetDefaultClearColor ∧
      (q.onSurface i GfxWindow.ResetClearColor).GetCurrentClearColor j =
        q.GetCurrentClearColor j) ∧
    ((p.SetDefaultClearColor d).onSurface i (GfxWindow.SetClearColor c)).GetCurrentClearColor j = d ∧
    ((p.SetDefaultClearColor d).onSurface i (GfxWindow.SetClearColor c)).GetCurrentClearColor i = c := by
  have hji : j ≠ i := fun h => hij h.symm
  refine ⟨rfl, ?_, ?_, ?_, ?_, ?_⟩
  · simp [Process.GetCurrentClearColor, Process.SetDefaultClearColor,
      GfxWindow.GetCurrentClearColor, GfxWindow.SetDefaultClearColor, hi]
  · simp [Process.GetCurrentClearColor, Process.SetDefaultClearColor,
      GfxWindow.GetCurrentClearColor, GfxWindow.SetDefaultClearColor, hj]
  · intro q
    simp [Process.GetCurrentClearColor, Process.GetDefaultClearColor, Process.onSurface,
      Function.update_noteq hji]
  · simp [Process.GetCurrentClearColor, Process.SetDefaultClearColor, Process.onSurface,
      Function.update_noteq hji, GfxWindow.GetCurrentClearColor,
      GfxWindow.SetDefaultClearColor, hj]
  · simp [Process.GetCurrentClearColor, Process.SetDefaultClearColor, Process.onSurface,
      GfxWindow.GetCurrentClearColor, GfxWindow.SetClearColor]

/-- Witness of C3: the default RGBA(0x23,0x23,0x23,255) in a process whose
surfaces are default-constructed; surfaces 0 and 1 both paint with it. -/
theorem default_clear_color_shared_witness :
    (Process.SetDefaultClearColor (gfx.Color4f.ofRGBA 0x23 0x23 0x23 255)
        ⟨⟨0, 0, ⟨0, 0, 0, 1⟩, MouseCursor.Native⟩, fun _ => {}⟩).GetCurrentClearColor 0 =
      gfx.Color4f.ofRGBA 0x23 0x23 0x23 255 ∧
    (Process.SetDefaultClearColor (gfx.Color4f.ofRGBA 0x23 0x23 0x23 255)
        ⟨⟨0, 0, ⟨0, 0, 0, 1⟩, MouseCursor.Native⟩, fun _ => {}⟩).GetCurrentClearColor 1 =
      gfx.Color4f.ofRGBA 0x23 0x23 0x23 255 :=
  have h := default_clear_color_shared ⟨⟨0, 0, ⟨0, 0, 0, 1⟩, MouseCursor.Native⟩, fun _ => {}⟩
    (gfx.Color4f.ofRGBA 0x23 0x23 0x23 255) (gfx.Color4f.ofRGBA 255 0 0 255) 0 1 rfl rfl
    (by decide)
  ⟨h.2.1, h.2.2.1⟩

/-! ## Theorems: the device handle and disposal -/

/-- C4: the code at the failing input. A default-constructed surface has no
device (`mCustomGraphicsDevice` is null); `reloadShaders()` and
`reloadTextures()` dereference the null device, on that surface and on a ready
surface after `dispose()`, while `getDeviceResourceStats()` tests the pointer
and returns default statistics. -/
theorem reload_dereferences_absent_device :
    ({} : GfxWindow).mCustomGraphicsDevice = none ∧
    ({} : GfxWindow).reloadShaders.isNone = true ∧
    ({} : GfxWindow).reloadTextures.isNone = true ∧
    (GfxWindow.dispose
      { mCustomGraphicsDevice := some ⟨["p"], ["s"], ["t"]⟩, mCustomGraphicsPainter := some ⟨[]⟩,
        mContext := some (), mInitDone := true }).1.reloadShaders.isNone = true ∧
    (GfxWindow.dispose
      { mCustomGraphicsDevice := some ⟨["p"], ["s"], ["t"]⟩, mCustomGraphicsPainter := some ⟨[]⟩,
        mContext := some (), mInitDone := true }).1.reloadTextures.isNone = true ∧
    ({} : GfxWindow).getDeviceResourceStats = {} := by
  refine ⟨rfl, rfl, rfl, rfl, rfl, rfl⟩

/-- C5: `dispose()` is safe and idempotent. From every surface state `w` the
call returns (it is a total function); after `n + 1` consecutive calls the
state is the state after the first call, the first call released each held
handle once and every later call released nothing. -/
theorem dispose_idempotent (w : GfxWindow) (n : Nat) :
    GfxWindow.disposeTimes (n + 1) w = ((w.dispose).1, (w.dispose).2 :: List.replicate n []) ∧
    (w.dispose).1.dispose = ((w.dispose).1, []) ∧
    (w.dispose).2.Nodup ∧
    (w.mCustomGraphicsDevice = none → w.mCustomGraphicsPainter = none → w.mContext = none →
      w.dispose = (w, [])) := by
  have hsecond : ∀ v : GfxWindow, (v.dispose).1.dispose = ((v.dispose).1, []) := fun v => rfl
  have hrepeat : ∀ (m : Nat) (v : GfxWindow),
      GfxWindow.disposeTimes m (v.dispose).1 = ((v.dispose).1, List.replicate m []) := by
    intro m
    induction m with
    | zero => intro v; rfl
    | succ k ih =>
      intro v
      have hk := ih v
      simp only [GfxWindow.disposeTimes, hsecond v, hk, List.replicate_succ]
  refine ⟨?_, hsecond w, ?_, ?_⟩
  · simp only [GfxWindow.disposeTimes, hrepeat n w]
  · simp only [GfxWindow.dispose]
    cases w.mCustomGraphicsPainter <;> cases w.mCustomGraphicsDevice <;> cases w.mContext <;>
      simp
  · intro hd hp hc
    cases w
    simp only at hd hp hc
    subst hd hp hc
    rfl

/-- Witness of C5: a never-initialised surface holds no handle, and `dispose()`
leaves it as it is. -/
theorem dispose_idempotent_witness : ({} : GfxWindow).dispose.2 = [] :=
  congrArg Prod.snd ((dispose_idempotent {} 0).2.2.2 rfl rfl rfl)

/-! ## Theorems: the paint cycle -/

/-- The clamped elapsed time is never negative, whatever the bound. -/
theorem clampSecs_nonneg (policy : GfxWindow.PaintPolicy) (delta : ℚ) :
    0 ≤ GfxWindow.clampSecs policy delta :=
  le_max_left 0 _

/-- One paint cycle never lowers the accumulated time. -/
theorem getTime_le_triggerPaint (policy : GfxWindow.PaintPolicy) (g : GfxStatics) (now : ℚ)
    (w : GfxWindow) : w.GetTime ≤ (GfxWindow.triggerPaint policy g now w).1.GetTime := by
  unfold GfxWindow.triggerPaint GfxWindow.paintGL GfxWindow.GetTime
  split
  · exact le_add_of_nonneg_right (clampSecs_nonneg policy _)
  · exact le_refl _

/-- C6: `GetTime()` is non-decreasing across paint cycles. For every surface
and every run of paint cycles (one per clock reading, in any order of
readings), each value of `GetTime()` is at least the value before it; a paint
on a ready surface adds exactly the clamped elapsed seconds, which are not
negative; and the colour setters and `dispose()` leave the accumulated time
as it is. -/
theorem getTime_monotone (policy : GfxWindow.PaintPolicy) (g : GfxStatics) (nows : List ℚ)
    (now : ℚ) (w : GfxWindow) (c : gfx.Color4f) :
    List.Chain' (fun a b => a ≤ b) (GfxWindow.timesAlong policy g nows w) ∧
    w.GetTime ≤ (GfxWindow.triggerPaint policy g now w).1.GetTime ∧
    w.GetTime ≤ (GfxWindow.paintAll policy g nows w).GetTime ∧
    (w.mContext.isSome = true → w.mCustomGraphicsDevice.isSome = true →
      w.mCustomGraphicsPainter.isSome = true →
      (GfxWindow.triggerPaint policy g now w).1.GetTime =
        w.GetTime + GfxWindow.clampSecs policy (now - w.mTimeStamp)) ∧
    0 ≤ GfxWindow.clampSecs policy (now - w.mTimeStamp) ∧
    (w.SetClearColor c).GetTime = w.GetTime ∧
    w.ResetClearColor.GetTime = w.GetTime ∧
    (w.dispose).1.GetTime = w.GetTime := by
  have hhead : ∀ (l : List ℚ) (v : GfxWindow),
      (GfxWindow.timesAlong policy g l v).head? = some v.GetTime := by
    intro l v
    cases l <;> rfl
  have hchain : ∀ (l : List ℚ) (v : GfxWindow),
      List.Chain' (fun a b => a ≤ b) (GfxWindow.timesAlong policy g l v) := by
    intro l
    induction l with
    | nil => intro v; simp [GfxWindow.timesAlong]
    | cons t rest ih =>
      intro v
      simp only [GfxWindow.timesAlong]
      refine List.Chain'.cons' (ih _) ?_
      intro y hy
      rw [hhead] at hy
      cases hy
      exact getTime_le_triggerPaint policy g t v
  have hall : ∀ (l : List ℚ) (v : GfxWindow),
      v.GetTime ≤ (GfxWindow.paintAll policy g l v).GetTime := by
    intro l
    induction l with
    | nil => intro v; exact le_refl _
    | cons t rest ih =>
      intro v
      exact le_trans (getTime_le_triggerPaint policy g t v) (ih _)
  refine ⟨hchain nows w, getTime_le_triggerPaint policy g now w, hall nows w, ?_,
    clampSecs_nonneg policy _, rfl, rfl, rfl⟩
  intro hc hd hp
  unfold GfxWindow.triggerPaint GfxWindow.paintGL GfxWindow.GetTime
  cases hcx : w.mContext with
  | none => simp [hcx] at hc
  | some cx =>
    cases hdv : w.mCustomGraphicsDevice with
    | none => simp [hdv] at hd
    | some dv =>
      cases hpt : w.mCustomGraphicsPainter with
      | none => simp [hpt] at hp
      | some pt => rfl

/-- Witness of C6: a ready surface last painted at time 1 and painted again at
time 3 under a clamp bound of 1 gains exactly one second. -/
theorem getTime_monotone_witness :
    (GfxWindow.triggerPaint ⟨1, fun f _ _ => f⟩ ⟨0, 0, ⟨0, 0, 0, 1⟩, MouseCursor.Native⟩ 3
        { mCustomGraphicsDevice := some ⟨[], [], []⟩, mCustomGraphicsPainter := some ⟨[]⟩,
          mContext := some (), mInitDone := true, mTimeStamp := 1, mTimeAccum := 5 }).1.GetTime =
      GfxWindow.GetTime
          { mCustomGraphicsDevice := some ⟨[], [], []⟩, mCustomGraphicsPainter := some ⟨[]⟩,
            mContext := some (), mInitDone := true, mTimeStamp := 1, mTimeAccum := 5 } +
        GfxWindow.clampSecs ⟨1, fun f _ _ => f⟩
          (3 - GfxWindow.mTimeStamp
            { mCustomGraphicsDevice := some ⟨[], [], []⟩, mCustomGraphicsPainter := some ⟨[]⟩,
              mContext := some (), mInitDone := true, mTimeStamp := 1, mTimeAccum := 5 }) :=
  (getTime_monotone ⟨1, fun f _ _ => f⟩ ⟨0, 0, ⟨0, 0, 0, 1⟩, MouseCursor.Native⟩ [] 3
    { mCustomGraphicsDevice := some ⟨[], [], []⟩, mCustomGraphicsPainter := some ⟨[]⟩,
      mContext := some (), mInitDone := true, mTimeStamp := 1, mTimeAccum := 5 }
    (gfx.Color4f.ofRGBA 0 0 0 255)).2.2.2.1 rfl rfl rfl

/-- C7: a ready surface with no paint callback still paints. For every surface
with context, device and painter and with `onPaintScene` empty,
`triggerPaint()` returns, issues exactly a clear with the resolved clear
colour (the override if set, else the process-wide default) followed by the
buffer swap, and does the frame accounting; with a callback registered the
only difference in the device calls is the callback's output between the two. -/
theorem triggerPaint_without_callback (policy : GfxWindow.PaintPolicy) (g : GfxStatics) (now : ℚ)
    (w : GfxWindow) (dv : gfx.Device) (pt : gfx.Painter) (cx : Unit)
    (hdevice : w.mCustomGraphicsDevice = some dv) (hpainter : w.mCustomGraphicsPainter = some pt)
    (hcontext : w.mContext = some cx) (hcallback : w.onPaintScene = none) :
    (GfxWindow.triggerPaint policy g now w).2 =
      [gfx.DeviceCall.clearColor (GfxWindow.GetCurrentClearColor g w),
        gfx.DeviceCall.swapBuffers w.mVsync] ∧
    (∀ c, w.mClearColor = some c → GfxWindow.GetCurrentClearColor g w = c) ∧
    (w.mClearColor = none → GfxWindow.GetCurrentClearColor g w = GfxWindow.GetDefaultClearColor g) ∧
    (GfxWindow.triggerPaint policy g now w).1.GetTime =
      w.GetTime + GfxWindow.clampSecs policy (now - w.mTimeStamp) ∧
    (∀ callback : gfx.Painter → ℚ → List gfx.DeviceCall,
      (GfxWindow.triggerPaint policy g now { w with onPaintScene := some callback }).2 =
        [gfx.DeviceCall.clearColor (GfxWindow.GetCurrentClearColor g w)] ++
          callback pt (GfxWindow.clampSecs policy (now - w.mTimeStamp)) ++
          [gfx.DeviceCall.swapBuffers w.mVsync]) := by
  refine ⟨?_, ?_, ?_, ?_, ?_⟩
  · simp [GfxWindow.triggerPaint, GfxWindow.paintGL, hdevice, hpainter, hcontext, hcallback]
  · intro c hc
    simp [GfxWindow.GetCurrentClearColor, hc]
  · intro hc
    simp [GfxWindow.GetCurrentClearColor, GfxWindow.GetDefaultClearColor, hc]
  · simp [GfxWindow.triggerPaint, GfxWindow.paintGL, hdevice, hpainter, hcontext,
      GfxWindow.GetTime]
  · intro callback
    simp [GfxWindow.triggerPaint, GfxWindow.paintGL, hdevice, hpainter, hcontext,
      GfxWindow.GetCurrentClearColor]

/-- Witness of C7: a ready surface without override and without callback, under
the default RGBA(0x23,0x23,0x23,255), issues the clear with that colour and the
swap. -/
theorem triggerPaint_without_callback_witness :
    (GfxWindow.triggerPaint ⟨1, fun f _ _ => f⟩
        ⟨0, 0, gfx.Color4f.ofRGBA 0x23 0x23 0x23 255, MouseCursor.Native⟩ 3
        { mCustomGraphicsDevice := some ⟨[], [], []⟩, mCustomGraphicsPainter := some ⟨[]⟩,
          mContext := some (), mInitDone := true }).2 =
      [gfx.DeviceCall.clearColor (gfx.Color4f.ofRGBA 0x23 0x23 0x23 255),
        gfx.DeviceCall.swapBuffers false] :=
  (triggerPaint_without_callback ⟨1, fun f _ _ => f⟩
    ⟨0, 0, gfx.Color4f.ofRGBA 0x23 0x23 0x23 255, MouseCursor.Native⟩ 3
    { mCustomGraphicsDevice := some ⟨[], [], []⟩, mCustomGraphicsPainter := some ⟨[]⟩,
      mContext := some (), mInitDone := true }
    ⟨[], [], []⟩ ⟨[]⟩ () rfl rfl rfl rfl).1

/-! ## Theorems: key events and deferred texture deletion -/

/-- C8: for every key-press event delivered to a widget with a registered
`onKeyPress` callback: when the callback returns true the event is consumed
and nothing more is done with it, no `FocusNextPrev` call in particular; when
it returns false the event is not consumed and the default focus navigation
for that key runs (next widget on Tab, previous widget on Shift-Tab). -/
theorem keyPress_consumed_stops_navigation (wd : GfxWidget) (callback : QKeyEvent → Bool)
    (key : QKeyEvent) (hcallback : wd.onKeyPress = some callback) :
    (callback key = true → wd.keyPress key = (true, none)) ∧
    (callback key = false →
      wd.keyPress key = (false, GfxWidget.defaultFocusNavigation key)) ∧
    (callback key = false → key.key = GfxWidget.Key_Tab → key.shift = false →
      wd.keyPress key = (false, some WidgetFocus.FocusNextWidget)) ∧
    (callback key = false → key.key = GfxWidget.Key_Tab → key.shift = true →
      wd.keyPress key = (false, some WidgetFocus.FocusPrevWidget)) := by
  refine ⟨?_, ?_, ?_, ?_⟩
  · intro h
    simp [GfxWidget.keyPress, hcallback, h]
  · intro h
    simp [GfxWidget.keyPress, hcallback, h]
  · intro h hk hs
    simp [GfxWidget.keyPress, hcallback, h, GfxWidget.defaultFocusNavigation, hk, hs,
      GfxWidget.Key_Tab, GfxWidget.Key_Backtab]
  · intro h hk hs
    simp [GfxWidget.keyPress, hcallback, h, GfxWidget.defaultFocusNavigation, hk, hs]

/-- Witness of C8: a callback that consumes every key stops the Tab key from
moving the focus. -/
theorem keyPress_consumed_stops_navigation_witness :
    GfxWidget.keyPress { onKeyPress := some (fun _ => true) } ⟨GfxWidget.Key_Tab, false⟩ =
      (true, none) :=
  (keyPress_consumed_stops_navigation { onKeyPress := some (fun _ => true) } (fun _ => true)
    ⟨GfxWidget.Key_Tab, false⟩ rfl).1 rfl

/-- A run of `DeleteTexture` calls only appends to the queue. -/
theorem deleteTextures_eq (ids : List String) (s : FrameState) :
    GfxWindow.deleteTextures ids s = { s with garbage := s.garbage ++ ids } := by
  unfold GfxWindow.deleteTextures
  induction ids generalizing s with
  | nil => simp
  | cons gpuId rest ih =>
    rw [List.foldl_cons, ih]
    simp [GfxWindow.DeleteTexture]

/-- C9: deferred texture deletion is flushed at the frame boundary. For every
run of texture ids queued with `DeleteTexture` after `BeginFrame()` and every
id of the run: before `EndFrame()` the device is as it was (nothing is
released); when `EndFrame()` has returned the texture is not among the
device's textures, the texture count of the resource statistics is the number
of live textures left, and that count has dropped when the texture was live. -/
theorem endFrame_flushes_deleted_textures (s : FrameState) (ids : List String) (gpuId : String)
    (hqueued : gpuId ∈ ids) :
    (GfxWindow.deleteTextures ids (GfxWindow.BeginFrame s)).device = s.device ∧
    gpuId ∉ (GfxWindow.EndFrame
      (GfxWindow.deleteTextures ids (GfxWindow.BeginFrame s))).1.device.textures ∧
    (GfxWindow.EndFrame
        (GfxWindow.deleteTextures ids (GfxWindow.BeginFrame s))).1.device.GetResourceStats.textures =
      (s.device.textures.filter (fun t => !(s.garbage ++ ids).contains t)).length ∧
    (gpuId ∈ s.device.textures →
      (GfxWindow.EndFrame
          (GfxWindow.deleteTextures ids (GfxWindow.BeginFrame s))).1.device.GetResourceStats.textures <
        s.device.GetResourceStats.textures ∧
      (GfxWindow.EndFrame (GfxWindow.deleteTextures ids (GfxWindow.BeginFrame s))).2 = true) ∧
    (GfxWindow.EndFrame (GfxWindow.deleteTextures ids (GfxWindow.BeginFrame s))).1.garbage = [] := by
  have hstate : GfxWindow.deleteTextures ids (GfxWindow.BeginFrame s) =
      { s with garbage := s.garbage ++ ids, inFrame := true } := by
    rw [deleteTextures_eq]
    rfl
  have hin : (s.garbage ++ ids).contains gpuId = true := by
    simp [hqueued]
  have hlive : (GfxWindow.EndFrame
      (GfxWindow.deleteTextures ids (GfxWindow.BeginFrame s))).1.device.textures =
      s.device.textures.filter (fun t => !(s.garbage ++ ids).contains t) := by
    rw [hstate]
    rfl
  have hdrop : gpuId ∈ s.device.textures →
      (s.device.textures.filter (fun t => !(s.garbage ++ ids).contains t)).length <
        s.device.textures.length := by
    intro hmem
    by_contra hlt
    have hle := List.length_filter_le (fun t => !(s.garbage ++ ids).contains t) s.device.textures
    have heq : (s.device.textures.filter (fun t => !(s.garbage ++ ids).contains t)).length =
        s.device.textures.length := by omega
    have hall : (!(s.garbage ++ ids).contains gpuId) = true :=
      List.filter_length_eq_length.mp heq gpuId hmem
    rw [hin] at hall
    exact absurd hall (by decide)
  refine ⟨by rw [hstate], ?_, ?_, ?_, ?_⟩
  · rw [hlive, List.mem_filter]
    intro h
    have hnot := h.2
    rw [hin] at hnot
    exact absurd hnot (by decide)
  · simp only [gfx.Device.GetResourceStats, hlive]
  · intro hmem
    refine ⟨?_, ?_⟩
    · simp only [gfx.Device.GetResourceStats, hlive]
      exact hdrop hmem
    · have hne : (GfxWindow.EndFrame
          (GfxWindow.deleteTextures ids (GfxWindow.BeginFrame s))).1.device ≠
          (GfxWindow.deleteTextures ids (GfxWindow.BeginFrame s)).device := by
        intro heq
        have hlen := congrArg (fun d : gfx.Device => d.textures.length) heq
        simp only [hlive] at hlen
        rw [hstate] at hlen
        simp only at hlen
        have := hdrop hmem
        omega
      simp only [GfxWindow.EndFrame, decide_eq_true_eq]
      exact hne
  · rw [hstate]
    rfl

/-- Witness of C9: with textures "a" and "b" live, deleting "a" inside a frame
leaves one texture in the statistics after `EndFrame()`. -/
theorem endFrame_flushes_deleted_textures_witness :
    (GfxWindow.EndFrame (GfxWindow.deleteTextures ["a"]
        (GfxWindow.BeginFrame ⟨⟨[], [], ["a", "b"]⟩, [], false⟩))).1.device.GetResourceStats.textures =
      (List.filter (fun t => !([] ++ ["a"]).contains t) ["a", "b"]).length :=
  (endFrame_flushes_deleted_textures ⟨⟨[], [], ["a", "b"]⟩, [], false⟩ ["a"] "a"
    (List.mem_singleton.mpr rfl)).2.2.1

/-! ## Theorems: the settings dialog -/

/-- Reading a field after an assignment: the assigned value at the assigned
field, the old value elsewhere. -/
theorem Settings.get_set {V : Type} (s : Settings V) (f f₀ : Field) (v : V) :
    (s.set f₀ v).get f = if f = f₀ then v else s.get f := by
  cases f₀ <;> cases f <;> simp [Settings.set, Settings.get, Function.update_apply]

/-- Two settings triples with the same value at every field are equal. -/
theorem Settings.ext_get {V : Type} (s t : Settings V) (h : ∀ f, s.get f = t.get f) : s = t := by
  cases s with
  | mk a b c =>
    cases t with
    | mk a₁ b₁ c₁ =>
      have ha : a = a₁ := funext fun f => h (Field.mSettings f)
      have hb : b = b₁ := funext fun f => h (Field.mScriptSettings f)
      have hc : c = c₁ := funext fun f => h (Field.mWidgetSettings f)
      subst ha hb hc
      rfl

/-- A run of `SetUIValue` calls leaves a control it does not name as it was. -/
theorem foldl_SetUIValue_other {V W : Type} (codec : UICodec V W) (s : Settings V)
    (bs : List (Control × Field)) (ui : Control → W) (c : Control)
    (hc : c ∉ bs.map Prod.fst) :
    (bs.foldl (fun acc b => SetUIValue codec acc b.1 (s.get b.2)) ui) c = ui c := by
  induction bs generalizing ui with
  | nil => rfl
  | cons b rest ih =>
    rw [List.map_cons, List.mem_cons, not_or] at hc
    rw [List.foldl_cons, ih _ hc.2]
    exact Function.update_noteq hc.1 _ _

/-- After a run of `SetUIValue` calls that names each control once, a control
holds the stored value of the field it is bound to. -/
theorem foldl_SetUIValue_bound {V W : Type} (codec : UICodec V W) (s : Settings V)
    (bs : List (Control × Field)) (ui : Control → W) (c : Control) (f : Field)
    (hnodup : (bs.map Prod.fst).Nodup) (hmem : (c, f) ∈ bs) :
    ∃ w, (bs.foldl (fun acc b => SetUIValue codec acc b.1 (s.get b.2)) ui) c =
      codec.store c (s.get f) w := by
  induction bs generalizing ui with
  | nil => cases hmem
  | cons b rest ih =>
    rw [List.map_cons, List.nodup_cons] at hnodup
    rw [List.foldl_cons]
    rcases List.mem_cons.mp hmem with hb | hrest
    · subst hb
      refine ⟨ui c, ?_⟩
      rw [foldl_SetUIValue_other codec s rest _ c hnodup.1]
      exact Function.update_same _ _ _
    · exact ih _ hnodup.2 hrest

/-- A run of `GetUIValue` assignments leaves a field it does not name as it was. -/
theorem foldl_GetUIValue_other {V W : Type} (codec : UICodec V W) (ui : Control → W)
    (bs : List (Control × Field)) (s : Settings V) (f : Field) (hf : f ∉ bs.map Prod.snd) :
    (bs.foldl (fun acc b => acc.set b.2 (GetUIValue codec ui b.1)) s).get f = s.get f := by
  induction bs generalizing s with
  | nil => rfl
  | cons b rest ih =>
    rw [List.map_cons, List.mem_cons, not_or] at hf
    rw [List.foldl_cons, ih _ hf.2, Settings.get_set, if_neg hf.1]

/-- After a run of `GetUIValue` assignments that names each field once, a field
holds the value read from the control it is bound to. -/
theorem foldl_GetUIValue_bound {V W : Type} (codec : UICodec V W) (ui : Control → W)
    (bs : List (Control × Field)) (s : Settings V) (c : Control) (f : Field)
    (hnodup : (bs.map Prod.snd).Nodup) (hmem : (c, f) ∈ bs) :
    (bs.foldl (fun acc b => acc.set b.2 (GetUIValue codec ui b.1)) s).get f =
      GetUIValue codec ui c := by
  induction bs generalizing s with
  | nil => cases hmem
  | cons b rest ih =>
    rw [List.map_cons, List.nodup_cons] at hnodup
    rw [List.foldl_cons]
    rcases List.mem_cons.mp hmem with hb | hrest
    · subst hb
      rw [foldl_GetUIValue_other codec ui rest _ f hnodup.1, Settings.get_set, if_pos rfl]
    · exact ih _ hnodup.2 hrest

/-- The constructor names each control once. -/
theorem ctorBindings_controls_nodup : (ctorBindings.map Prod.fst).Nodup := by
  decide

/-- Accept names each settings field once. -/
theorem acceptBindings_fields_nodup : (acceptBindings.map Prod.snd).Nodup := by
  decide

/-- Every binding read by accept is a binding written by the constructor. -/
theorem acceptBindings_subset_ctorBindings : ∀ p ∈ acceptBindings, p ∈ ctorBindings := by
  decide

/-- Every binding written by the constructor is a binding read by accept. -/
theorem ctorBindings_subset_acceptBindings : ∀ p ∈ ctorBindings, p ∈ acceptBindings := by
  decide

/-- Accept names each control once. -/
theorem acceptBindings_controls_nodup : (acceptBindings.map Prod.fst).Nodup := by
  decide

/-- C10: the settings dialog loads and stores the same fields. The (control,
settings field) pairs written by the `DlgSettings` constructor are exactly the
pairs read back by `on_btnAccept_clicked`: the constructor leaves each control
of a pair holding the value of its field, and accept, from every dialog state,
assigns to each field of a pair the value read from its control and to no
other field. So, when each control's `GetUIValue` returns what `SetUIValue`
stored, constructing the dialog from any settings and accepting it with no
edits leaves every settings field at its initial value, and the dialog is
accepted; and after an edit of one control accept stores the edited value in
the field bound to it and leaves every other field at its initial value. -/
theorem accept_after_construct_keeps_settings {V W : Type} (codec : UICodec V W)
    (hcodec : ∀ c v w, codec.load c (codec.store c v w) = v) (ui : Control → W)
    (s : Settings V) (d : DlgSettings V W) :
    (∀ p, p ∈ ctorBindings ↔ p ∈ acceptBindings) ∧
    (DlgSettings.on_btnAccept_clicked codec (DlgSettings.construct codec ui s)).settings = s ∧
    (∀ f, (DlgSettings.on_btnAccept_clicked codec (DlgSettings.construct codec ui s)).settings.get f =
      s.get f) ∧
    (DlgSettings.on_btnAccept_clicked codec (DlgSettings.construct codec ui s)).result =
      some DialogCode.Accepted ∧
    (DlgSettings.construct codec ui s).settings = s ∧
    (∀ c f, (c, f) ∈ acceptBindings →
      (DlgSettings.on_btnAccept_clicked codec d).settings.get f = GetUIValue codec d.mUI c) ∧
    (∀ f, f ∉ acceptBindings.map Prod.snd →
      (DlgSettings.on_btnAccept_clicked codec d).settings.get f = d.settings.get f) ∧
    (DlgSettings.on_btnAccept_clicked codec d).mUI = d.mUI ∧
    (DlgSettings.on_btnAccept_clicked codec d).result = some DialogCode.Accepted ∧
    (∀ c f, (c, f) ∈ ctorBindings →
      GetUIValue codec (DlgSettings.construct codec ui s).mUI c = s.get f) ∧
    (∀ c f w, (c, f) ∈ acceptBindings →
      (DlgSettings.on_btnAccept_clicked codec
        { DlgSettings.construct codec ui s with
          mUI := Function.update (DlgSettings.construct codec ui s).mUI c w }).settings.get f =
        codec.load c w ∧
      ∀ f', f' ≠ f →
        (DlgSettings.on_btnAccept_clicked codec
          { DlgSettings.construct codec ui s with
            mUI := Function.update (DlgSettings.construct codec ui s).mUI c w }).settings.get f' =
          s.get f') := by
  have hread : ∀ (e : DlgSettings V W) (c : Control) (f : Field), (c, f) ∈ acceptBindings →
      (DlgSettings.on_btnAccept_clicked codec e).settings.get f = GetUIValue codec e.mUI c := by
    intro e c f hmem
    exact foldl_GetUIValue_bound codec e.mUI acceptBindings e.settings c f
      acceptBindings_fields_nodup hmem
  have hkeep : ∀ (e : DlgSettings V W) (f : Field), f ∉ acceptBindings.map Prod.snd →
      (DlgSettings.on_btnAccept_clicked codec e).settings.get f = e.settings.get f := by
    intro e f hf
    exact foldl_GetUIValue_other codec e.mUI acceptBindings e.settings f hf
  have hwritten : ∀ c f, (c, f) ∈ ctorBindings →
      GetUIValue codec (DlgSettings.construct codec ui s).mUI c = s.get f := by
    intro c f hmem
    obtain ⟨w, hw⟩ := foldl_SetUIValue_bound codec s ctorBindings ui c f
      ctorBindings_controls_nodup hmem
    simp only [DlgSettings.construct, GetUIValue, hw, hcodec]
  have hfield : ∀ f,
      (DlgSettings.on_btnAccept_clicked codec (DlgSettings.construct codec ui s)).settings.get f =
        s.get f := by
    intro f
    by_cases hf : f ∈ acceptBindings.map Prod.snd
    · obtain ⟨p, hp, hpf⟩ := List.mem_map.mp hf
      obtain ⟨c, f'⟩ := p
      simp only at hpf
      subst hpf
      rw [hread _ c f' hp]
      exact hwritten c f' (acceptBindings_subset_ctorBindings _ hp)
    · exact hkeep _ f hf
  refine ⟨fun p => ⟨ctorBindings_subset_acceptBindings p, acceptBindings_subset_ctorBindings p⟩,
    Settings.ext_get _ _ hfield, hfield, rfl, rfl, hread d, hkeep d, rfl, rfl, hwritten, ?_⟩
  intro c f w hmem
  refine ⟨?_, ?_⟩
  · rw [hread _ c f hmem]
    simp only [GetUIValue, Function.update_same]
  · intro f' hne
    by_cases hf : f' ∈ acceptBindings.map Prod.snd
    · obtain ⟨p, hp, hpf⟩ := List.mem_map.mp hf
      obtain ⟨c', f''⟩ := p
      simp only at hpf
      subst hpf
      have hc : c' ≠ c := by
        intro hcc
        have hpair := List.inj_on_of_nodup_map acceptBindings_controls_nodup hp hmem hcc
        exact hne (congrArg Prod.snd hpair)
      rw [hread _ c' f'' hp]
      simp only [GetUIValue, Function.update_noteq hc]
      exact hwritten c' f'' (acceptBindings_subset_ctorBindings _ hp)
    · rw [hkeep _ f' hf]
      rfl

/-- Witness of C10: with controls that hold the value they are given, accept on
a dialog whose controls hold 5 over settings that hold 1, 2 and 3 stores 5 in
`clear_color`. -/
theorem accept_after_construct_keeps_settings_witness :
    (DlgSettings.on_btnAccept_clicked (⟨fun _ v _ => v, fun _ w => w⟩ : UICodec Nat Nat)
      ⟨fun _ => 5, ⟨fun _ => 1, fun _ => 2, fun _ => 3⟩, none⟩).settings.get
        (Field.mSettings AppSettingsField.clear_color) = 5 :=
  (accept_after_construct_keeps_settings (⟨fun _ v _ => v, fun _ w => w⟩ : UICodec Nat Nat)
    (fun _ _ _ => rfl) (fun _ => 0) ⟨fun _ => 1, fun _ => 2, fun _ => 3⟩
    ⟨fun _ => 5, ⟨fun _ => 1, fun _ => 2, fun _ => 3⟩, none⟩).2.2.2.2.2.1
    Control.clearColor (Field.mSettings AppSettingsField.clear_color) (by decide)

/-! ## Theorems: the slots of the settings dialog -/

/-- `UpdateSampleCode` requests one repaint of the preview and leaves the
posted callbacks, the controls, the settings and the result code as they
are. -/
theorem UpdateSampleCode_frame (tk : Toolkit) (d : SettingsDialog) :
    (d.UpdateSampleCode tk).code.mUpdates = d.code.mUpdates + 1 ∧
    (d.UpdateSampleCode tk).timers = d.timers ∧
    (d.UpdateSampleCode tk).mUI = d.mUI ∧
    (d.UpdateSampleCode tk).settings = d.settings ∧
    (d.UpdateSampleCode tk).result = d.result :=
  ⟨rfl, rfl, rfl, rfl, rfl⟩

/-- C11: exactly two change handlers of the settings dialog defer the refresh
of the sample code by one turn of the event loop. For every dialog state,
`on_editorFontName_currentIndexChanged` and
`on_editorShowLineNumbers_stateChanged` do not run `UpdateSampleCode` (no
repaint is requested, nothing but the callback queue changes) and post exactly
one zero-delay callback, which runs `UpdateSampleCode` on its turn; the
font-size, highlight-syntax, highlight-current-line and insert-spaces handlers
run `UpdateSampleCode` exactly once and post nothing. -/
theorem editor_handlers_deferral (tk : Toolkit) (d : SettingsDialog) (h : EditorHandler) :
    ((h = EditorHandler.editorFontName_currentIndexChanged ∨
        h = EditorHandler.editorShowLineNumbers_stateChanged) →
      h.run tk d = { d with timers := d.timers ++ [Deferred.UpdateSampleCode] } ∧
      (h.run tk d).code.mUpdates = d.code.mUpdates ∧
      (d.timers = [] → (h.run tk d).runTimer tk = d.UpdateSampleCode tk)) ∧
    (¬(h = EditorHandler.editorFontName_currentIndexChanged ∨
        h = EditorHandler.editorShowLineNumbers_stateChanged) →
      h.run tk d = d.UpdateSampleCode tk ∧
      (h.run tk d).timers = d.timers ∧
      (h.run tk d).code.mUpdates = d.code.mUpdates + 1) ∧
    ((h.run tk d).timers.length = d.timers.length + 1 ↔
      (h = EditorHandler.editorFontName_currentIndexChanged ∨
        h = EditorHandler.editorShowLineNumbers_stateChanged)) := by
  have hturn : d.timers = [] →
      (SettingsDialog.singleShot Deferred.UpdateSampleCode d).runTimer tk =
        d.UpdateSampleCode tk := by
    intro hempty
    obtain ⟨base, code, assistant, sample, timers⟩ := d
    simp only at hempty
    subst hempty
    rfl
  cases h
  case editorFontName_currentIndexChanged =>
    refine ⟨fun _ => ⟨rfl, rfl, hturn⟩, fun hn => absurd (Or.inl rfl) hn, ?_⟩
    simp [EditorHandler.run, SettingsDialog.on_editorFontName_currentIndexChanged,
      SettingsDialog.singleShot]
  case editorShowLineNumbers_stateChanged =>
    refine ⟨fun _ => ⟨rfl, rfl, hturn⟩, fun hn => absurd (Or.inr rfl) hn, ?_⟩
    simp [EditorHandler.run, SettingsDialog.on_editorShowLineNumbers_stateChanged,
      SettingsDialog.singleShot]
  case editorFontSize_currentIndexChanged =>
    refine ⟨fun hd => ?_, fun _ => ⟨rfl, rfl, rfl⟩, ?_⟩
    · rcases hd with hd | hd <;> cases hd
    · have hsame : (EditorHandler.editorFontSize_currentIndexChanged.run tk d).timers.length =
          d.timers.length := rfl
      constructor
      · intro hlen
        omega
      · intro hd
        rcases hd with hd | hd <;> cases hd
  case editorHightlightSyntax_stateChanged =>
    refine ⟨fun hd => ?_, fun _ => ⟨rfl, rfl, rfl⟩, ?_⟩
    · rcases hd with hd | hd <;> cases hd
    · have hsame : (EditorHandler.editorHightlightSyntax_stateChanged.run tk d).timers.length =
          d.timers.length := rfl
      constructor
      · intro hlen
        omega
      · intro hd
        rcases hd with hd | hd <;> cases hd
  case editorHightlightCurrentLine_stateChanged =>
    refine ⟨fun hd => ?_, fun _ => ⟨rfl, rfl, rfl⟩, ?_⟩
    · rcases hd with hd | hd <;> cases hd
    · have hsame :
          (EditorHandler.editorHightlightCurrentLine_stateChanged.run tk d).timers.length =
            d.timers.length := rfl
      constructor
      · intro hlen
        omega
      · intro hd
        rcases hd with hd | hd <;> cases hd
  case editorInsertSpaces_stateChanged =>
    refine ⟨fun hd => ?_, fun _ => ⟨rfl, rfl, rfl⟩, ?_⟩
    · rcases hd with hd | hd <;> cases hd
    · have hsame : (EditorHandler.editorInsertSpaces_stateChanged.run tk d).timers.length =
          d.timers.length := rfl
      constructor
      · intro hlen
        omega
      · intro hd
        rcases hd with hd | hd <;> cases hd

/-- Witness of C11: on a dialog with no callback pending, the font-name handler
posts a callback whose turn is one run of `UpdateSampleCode`. -/
theorem editor_handlers_deferral_witness :
    (EditorHandler.editorFontName_currentIndexChanged.run plainToolkit plainDialog).runTimer
        plainToolkit = plainDialog.UpdateSampleCode plainToolkit :=
  ((editor_handlers_deferral plainToolkit plainDialog
    EditorHandler.editorFontName_currentIndexChanged).1 (Or.inl rfl)).2.2 rfl

/-- Each picker slot is the common body on the line edit of its button. -/
theorem Picker.clicked_eq (tk : Toolkit) (p : Picker) (chosen : String) (d : SettingsDialog) :
    p.clicked tk chosen d = SettingsDialog.selectPath tk p.control chosen d := by
  cases p <;> rfl

/-- An interaction other than accept leaves the caller's settings as they are. -/
theorem Interaction.step_keeps_settings (tk : Toolkit) (i : Interaction) (d : SettingsDialog)
    (hi : i ≠ Interaction.btnAccept) : (i.step tk d).settings = d.settings := by
  cases i with
  | btnAccept => exact absurd rfl hi
  | btnCancel => rfl
  | select picker chosen =>
    simp only [Interaction.step, Picker.clicked_eq, SettingsDialog.selectPath]
    split <;> rfl
  | btnResetClearColor => rfl
  | btnResetGridColor => rfl
  | editorChanged handler => cases handler <;> rfl
  | UpdateSampleCode => rfl
  | eventLoopTurn =>
    simp only [Interaction.step, SettingsDialog.runTimer]
    split <;> rfl
  | themeChanged theme => rfl
  | userEdit control state => rfl

/-- A run of interactions without accept leaves the caller's settings as they
are. -/
theorem interact_keeps_settings (tk : Toolkit) (steps : List Interaction) (d : SettingsDialog)
    (h : Interaction.btnAccept ∉ steps) : (interact tk steps d).settings = d.settings := by
  unfold interact
  induction steps generalizing d with
  | nil => rfl
  | cons i rest ih =>
    rw [List.mem_cons, not_or] at h
    rw [List.foldl_cons, ih _ h.2]
    exact Interaction.step_keeps_settings tk i d (fun hi => h.1 hi.symm)

/-- C12: only accept writes to the caller's settings. For every dialog state
and every run of interactions without `on_btnAccept_clicked` (cancel, the
reset-colour buttons, the six pickers, the editor change handlers,
`UpdateSampleCode`, turns of the event loop, theme changes, edits of the
controls), the three settings objects are as before the run, hence as passed
to the constructor; and `on_btnCancel_clicked` sets the result code to
rejected and changes nothing else. -/
theorem only_accept_writes_settings (tk : Toolkit) (steps : List Interaction)
    (d : SettingsDialog) (h : Interaction.btnAccept ∉ steps) :
    (interact tk steps d).settings = d.settings ∧
    (∀ (ui : Control → Widget) (s : Settings UIValue) (code : TextEditor)
      (assistant : CodeAssistant) (sample : SampleCode) (timers : List Deferred),
      (interact tk steps
        { toDlgSettings := DlgSettings.construct tk.codec ui s, code := code,
          mAssistant := assistant, mSampleCode := sample, timers := timers }).settings = s) ∧
    d.on_btnCancel_clicked.result = some DialogCode.Rejected ∧
    d.on_btnCancel_clicked.settings = d.settings ∧
    d.on_btnCancel_clicked.mUI = d.mUI ∧
    d.on_btnCancel_clicked.code = d.code ∧
    d.on_btnCancel_clicked.mAssistant = d.mAssistant ∧
    d.on_btnCancel_clicked.mSampleCode = d.mSampleCode ∧
    d.on_btnCancel_clicked.timers = d.timers := by
  refine ⟨interact_keeps_settings tk steps d h, ?_, rfl, rfl, rfl, rfl, rfl, rfl, rfl⟩
  intro ui s code assistant sample timers
  rw [interact_keeps_settings tk steps _ h]
  rfl

/-- Witness of C12: a reset, a pick, a change of font, a turn of the event loop
and a cancel leave the settings of the dialog as they were. -/
theorem only_accept_writes_settings_witness :
    (interact plainToolkit
      [Interaction.btnResetClearColor, Interaction.select Picker.btnSelectPython "/usr/bin/python",
        Interaction.editorChanged EditorHandler.editorFontName_currentIndexChanged,
        Interaction.eventLoopTurn, Interaction.btnCancel] plainDialog).settings =
      plainDialog.settings :=
  (only_accept_writes_settings plainToolkit
    [Interaction.btnResetClearColor, Interaction.select Picker.btnSelectPython "/usr/bin/python",
      Interaction.editorChanged EditorHandler.editorFontName_currentIndexChanged,
      Interaction.eventLoopTurn, Interaction.btnCancel] plainDialog (by decide)).1

/-- C13: `getDeviceResourceStats()` is total. On every surface it returns a
value: default-constructed statistics when the device handle is absent, with
no access to the device, and exactly the statistics the device reports when
the surface has a device. It reads the device handle only, and being a `const`
member that assigns nothing it yields no new surface state. -/
theorem getDeviceResourceStats_total (w : GfxWindow) :
    (w.mCustomGraphicsDevice = none → w.getDeviceResourceStats = {}) ∧
    (∀ dv : gfx.Device, w.mCustomGraphicsDevice = some dv →
      w.getDeviceResourceStats = dv.GetResourceStats) ∧
    (∀ v : GfxWindow, v.mCustomGraphicsDevice = w.mCustomGraphicsDevice →
      v.getDeviceResourceStats = w.getDeviceResourceStats) ∧
    ({} : GfxWindow).getDeviceResourceStats = {} := by
  refine ⟨?_, ?_, ?_, rfl⟩
  · intro hnone
    simp [GfxWindow.getDeviceResourceStats, hnone]
  · intro dv hsome
    simp [GfxWindow.getDeviceResourceStats, hsome]
  · intro v hv
    simp [GfxWindow.getDeviceResourceStats, hv]

/-- Witness of C13: a surface whose device holds two textures and one shader
reports those counts. -/
theorem getDeviceResourceStats_total_witness :
    GfxWindow.getDeviceResourceStats { mCustomGraphicsDevice := some ⟨[], ["s"], ["a", "b"]⟩ } =
      { programs := 0, shaders := 1, textures := 2 } :=
  (getDeviceResourceStats_total { mCustomGraphicsDevice := some ⟨[], ["s"], ["a", "b"]⟩ }).2.1
    ⟨[], ["s"], ["a", "b"]⟩ rfl

/-- C14: cancelling a file or directory picker leaves the field untouched. For
each of the six `on_btnSelect..._clicked` slots: when the picker returns an
empty string the dialog is left as it is; otherwise the slot's line edit gets
the native-separator form of the chosen path as its text, with the cursor at
position 0, and no other control, and nothing else of the dialog, changes. -/
theorem picker_fills_line_edit (tk : Toolkit) (d : SettingsDialog) (p : Picker)
    (chosen : String) :
    (chosen = "" → p.clicked tk chosen d = d) ∧
    (chosen ≠ "" → ∀ e : QLineEdit, d.mUI p.control = Widget.lineEdit e →
      (p.clicked tk chosen d).mUI p.control =
        Widget.lineEdit ⟨QDir.toNativeSeparators tk.windows chosen, 0⟩) ∧
    (∀ c : Control, c ≠ p.control → (p.clicked tk chosen d).mUI c = d.mUI c) ∧
    (p.clicked tk chosen d).settings = d.settings ∧
    (p.clicked tk chosen d).result = d.result ∧
    (p.clicked tk chosen d).code = d.code ∧
    (p.clicked tk chosen d).mSampleCode = d.mSampleCode ∧
    (p.clicked tk chosen d).timers = d.timers ∧
    (tk.windows = false → QDir.toNativeSeparators tk.windows chosen = chosen) := by
  rw [Picker.clicked_eq]
  unfold SettingsDialog.selectPath
  refine ⟨?_, ?_, ?_, ?_, ?_, ?_, ?_, ?_, ?_⟩
  · intro hempty
    rw [if_pos hempty]
  · intro hchosen e he
    rw [if_neg hchosen]
    simp [he, Widget.setText, Widget.setCursorPosition, QLineEdit.setText,
      QLineEdit.setCursorPosition]
  · intro c hc
    split
    · rfl
    · exact Function.update_noteq hc _ _
  · split <;> rfl
  · split <;> rfl
  · split <;> rfl
  · split <;> rfl
  · split <;> rfl
  · intro hw
    simp [QDir.toNativeSeparators, hw]

/-- Witness of C14: picking a Python executable fills the Python line edit
with the path and puts the cursor at position 0. -/
theorem picker_fills_line_edit_witness :
    (Picker.btnSelectPython.clicked plainToolkit "/usr/bin/python" plainDialog).mUI
        Control.edtPythonExecutable =
      Widget.lineEdit ⟨QDir.toNativeSeparators plainToolkit.windows "/usr/bin/python", 0⟩ :=
  (picker_fills_line_edit plainToolkit plainDialog Picker.btnSelectPython
    "/usr/bin/python").2.1 (by decide) ⟨"", 0⟩ rfl

/-- Accept reads the clear colour from the clear-colour control and the grid
colour from the grid-colour control. -/
theorem acceptBindings_colors :
    (Control.clearColor, Field.mSettings AppSettingsField.clear_color) ∈ acceptBindings ∧
    (Control.gridColor, Field.mSettings AppSettingsField.grid_color) ∈ acceptBindings := by
  decide

/-- C15: the reset buttons restore fixed constants whatever the current value.
When each control's `GetUIValue` returns what `SetUIValue` stored:
`on_btnResetClearColor_clicked` leaves the clear-colour control holding
RGBA(0x23,0x23,0x23,255) and `on_btnResetGridColor_clicked` leaves the
grid-colour control holding RGBA(0xe3,0xe3,0xe3,50); a second click changes no
value a control holds (and no control state when storing a value twice is
storing it once); no other control and nothing else of the dialog changes; and
accepting right after a reset stores exactly that constant in
`settings.clear_color`, respectively `settings.grid_color`. -/
theorem reset_buttons_restore_constants (tk : Toolkit) (d : SettingsDialog)
    (hcodec : ∀ c v w, tk.codec.load c (tk.codec.store c v w) = v) :
    GetUIValue tk.codec (d.on_btnResetClearColor_clicked tk).mUI Control.clearColor =
      UIValue.color ⟨0x23, 0x23, 0x23, 255⟩ ∧
    GetUIValue tk.codec (d.on_btnResetGridColor_clicked tk).mUI Control.gridColor =
      UIValue.color ⟨0xe3, 0xe3, 0xe3, 50⟩ ∧
    (∀ c, c ≠ Control.clearColor → (d.on_btnResetClearColor_clicked tk).mUI c = d.mUI c) ∧
    (∀ c, c ≠ Control.gridColor → (d.on_btnResetGridColor_clicked tk).mUI c = d.mUI c) ∧
    (∀ c, GetUIValue tk.codec
        ((d.on_btnResetClearColor_clicked tk).on_btnResetClearColor_clicked tk).mUI c =
      GetUIValue tk.codec (d.on_btnResetClearColor_clicked tk).mUI c) ∧
    (∀ c, GetUIValue tk.codec
        ((d.on_btnResetGridColor_clicked tk).on_btnResetGridColor_clicked tk).mUI c =
      GetUIValue tk.codec (d.on_btnResetGridColor_clicked tk).mUI c) ∧
    ((∀ c v w, tk.codec.store c v (tk.codec.store c v w) = tk.codec.store c v w) →
      (d.on_btnResetClearColor_clicked tk).on_btnResetClearColor_clicked tk =
        d.on_btnResetClearColor_clicked tk ∧
      (d.on_btnResetGridColor_clicked tk).on_btnResetGridColor_clicked tk =
        d.on_btnResetGridColor_clicked tk) ∧
    ((d.on_btnResetClearColor_clicked tk).settings = d.settings ∧
      (d.on_btnResetClearColor_clicked tk).result = d.result ∧
      (d.on_btnResetClearColor_clicked tk).code = d.code ∧
      (d.on_btnResetClearColor_clicked tk).mSampleCode = d.mSampleCode ∧
      (d.on_btnResetClearColor_clicked tk).timers = d.timers) ∧
    ((d.on_btnResetGridColor_clicked tk).settings = d.settings ∧
      (d.on_btnResetGridColor_clicked tk).result = d.result ∧
      (d.on_btnResetGridColor_clicked tk).code = d.code ∧
      (d.on_btnResetGridColor_clicked tk).mSampleCode = d.mSampleCode ∧
      (d.on_btnResetGridColor_clicked tk).timers = d.timers) ∧
    ((d.on_btnResetClearColor_clicked tk).on_btnAccept_clicked tk).settings.get
        (Field.mSettings AppSettingsField.clear_color) = UIValue.color ⟨0x23, 0x23, 0x23, 255⟩ ∧
    ((d.on_btnResetGridColor_clicked tk).on_btnAccept_clicked tk).settings.get
        (Field.mSettings AppSettingsField.grid_color) = UIValue.color ⟨0xe3, 0xe3, 0xe3, 50⟩ := by
  have hclear : GetUIValue tk.codec (d.on_btnResetClearColor_clicked tk).mUI Control.clearColor =
      UIValue.color ⟨0x23, 0x23, 0x23, 255⟩ := by
    simp [SettingsDialog.on_btnResetClearColor_clicked, SetUIValue, GetUIValue, hcodec]
  have hgrid : GetUIValue tk.codec (d.on_btnResetGridColor_clicked tk).mUI Control.gridColor =
      UIValue.color ⟨0xe3, 0xe3, 0xe3, 50⟩ := by
    simp [SettingsDialog.on_btnResetGridColor_clicked, SetUIValue, GetUIValue, hcodec]
  have haccept : ∀ (e : SettingsDialog) (c : Control) (f : Field), (c, f) ∈ acceptBindings →
      (e.on_btnAccept_clicked tk).settings.get f = GetUIValue tk.codec e.mUI c := by
    intro e c f hmem
    exact foldl_GetUIValue_bound tk.codec e.mUI acceptBindings e.settings c f
      acceptBindings_fields_nodup hmem
  refine ⟨hclear, hgrid, ?_, ?_, ?_, ?_, ?_, ⟨rfl, rfl, rfl, rfl, rfl⟩, ⟨rfl, rfl, rfl, rfl, rfl⟩,
    ?_, ?_⟩
  · intro c hc
    exact Function.update_noteq hc _ _
  · intro c hc
    exact Function.update_noteq hc _ _
  · intro c
    by_cases hc : c = Control.clearColor
    · subst hc
      simp [SettingsDialog.on_btnResetClearColor_clicked, SetUIValue, GetUIValue, hcodec]
    · simp [SettingsDialog.on_btnResetClearColor_clicked, SetUIValue, GetUIValue,
        Function.update_noteq hc]
  · intro c
    by_cases hc : c = Control.gridColor
    · subst hc
      simp [SettingsDialog.on_btnResetGridColor_clicked, SetUIValue, GetUIValue, hcodec]
    · simp [SettingsDialog.on_btnResetGridColor_clicked, SetUIValue, GetUIValue,
        Function.update_noteq hc]
  · intro hidem
    constructor
    · simp [SettingsDialog.on_btnResetClearColor_clicked, SetUIValue, hidem]
    · simp [SettingsDialog.on_btnResetGridColor_clicked, SetUIValue, hidem]
  · rw [haccept _ _ _ acceptBindings_colors.1]
    exact hclear
  · rw [haccept _ _ _ acceptBindings_colors.2]
    exact hgrid

/-- Witness of C15: with controls that hold what they are given, a reset of the
clear colour followed by accept stores RGBA(0x23,0x23,0x23,255). -/
theorem reset_buttons_restore_constants_witness :
    ((plainDialog.on_btnResetClearColor_clicked plainToolkit).on_btnAccept_clicked
        plainToolkit).settings.get (Field.mSettings AppSettingsField.clear_color) =
      UIValue.color ⟨0x23, 0x23, 0x23, 255⟩ :=
  (reset_buttons_restore_constants plainToolkit plainDialog (by
    intro c v w
    cases v <;> cases w <;> rfl)).2.2.2.2.2.2.2.2.2.1

/-- C16: `UpdateSampleCode` makes the highlight of the preview track the
checkbox. For every state of the controls, after `UpdateSampleCode` the sample
document is highlighted exactly when the highlight-syntax control holds true
(the highlight is applied when it does, removed when it does not), and the
settings of the preview editor are the values read from the seven editor
controls, with every other editor setting, the keymap included, at its default;
those settings are the ones in effect, and the controls are as before. -/
theorem UpdateSampleCode_tracks_controls (tk : Toolkit) (d : SettingsDialog) :
    ((d.UpdateSampleCode tk).mSampleCode.highlight.isSome = true ↔
      GetUIValue tk.codec d.mUI Control.editorHightlightSyntax = UIValue.flag true) ∧
    (GetUIValue tk.codec d.mUI Control.editorHightlightSyntax = UIValue.flag true →
      (d.UpdateSampleCode tk).mSampleCode = d.mAssistant.ApplyHighlight d.mSampleCode) ∧
    (GetUIValue tk.codec d.mUI Control.editorHightlightSyntax ≠ UIValue.flag true →
      (d.UpdateSampleCode tk).mSampleCode = d.mAssistant.RemoveHighlight d.mSampleCode) ∧
    (d.UpdateSampleCode tk).code.mSettings TextEditorField.use_code_completer =
      GetUIValue tk.codec d.mUI Control.chkUseCodeCompletion ∧
    (d.UpdateSampleCode tk).code.mSettings TextEditorField.show_line_numbers =
      GetUIValue tk.codec d.mUI Control.editorShowLineNumbers ∧
    (d.UpdateSampleCode tk).code.mSettings TextEditorField.highlight_current_line =
      GetUIValue tk.codec d.mUI Control.editorHightlightCurrentLine ∧
    (d.UpdateSampleCode tk).code.mSettings TextEditorField.highlight_syntax =
      GetUIValue tk.codec d.mUI Control.editorHightlightSyntax ∧
    (d.UpdateSampleCode tk).code.mSettings TextEditorField.replace_tabs_with_spaces =
      GetUIValue tk.codec d.mUI Control.editorInsertSpaces ∧
    (d.UpdateSampleCode tk).code.mSettings TextEditorField.font_size =
      GetUIValue tk.codec d.mUI Control.editorFontSize ∧
    (d.UpdateSampleCode tk).code.mSettings TextEditorField.font_description =
      GetUIValue tk.codec d.mUI Control.editorFontName ∧
    (d.UpdateSampleCode tk).code.mSettings TextEditorField.keymap =
      tk.editorDefaults TextEditorField.keymap ∧
    (∀ f : TextEditorField,
      f ∉ [TextEditorField.use_code_completer, TextEditorField.show_line_numbers,
        TextEditorField.highlight_current_line, TextEditorField.highlight_syntax,
        TextEditorField.replace_tabs_with_spaces, TextEditorField.font_size,
        TextEditorField.font_description] →
      (d.UpdateSampleCode tk).code.mSettings f = tk.editorDefaults f) ∧
    (d.UpdateSampleCode tk).code.mApplied = (d.UpdateSampleCode tk).code.mSettings ∧
    (d.UpdateSampleCode tk).mUI = d.mUI := by
  have hsample : (d.UpdateSampleCode tk).mSampleCode =
      if GetUIValue tk.codec d.mUI Control.editorHightlightSyntax = UIValue.flag true then
        d.mAssistant.ApplyHighlight d.mSampleCode
      else d.mAssistant.RemoveHighlight d.mSampleCode := by
    simp [SettingsDialog.UpdateSampleCode, Function.update_apply]
  refine ⟨?_, ?_, ?_, ?_, ?_, ?_, ?_, ?_, ?_, ?_, ?_, ?_, rfl, rfl⟩
  · rw [hsample]
    split <;> simp [CodeAssistant.ApplyHighlight, CodeAssistant.RemoveHighlight, *]
  · intro hchecked
    rw [hsample, if_pos hchecked]
  · intro hunchecked
    rw [hsample, if_neg hunchecked]
  · simp [SettingsDialog.UpdateSampleCode, TextEditor.SetSettings, TextEditor.ApplySettings,
      TextEditor.update, Function.update_apply]
  · simp [SettingsDialog.UpdateSampleCode, TextEditor.SetSettings, TextEditor.ApplySettings,
      TextEditor.update, Function.update_apply]
  · simp [SettingsDialog.UpdateSampleCode, TextEditor.SetSettings, TextEditor.ApplySettings,
      TextEditor.update, Function.update_apply]
  · simp [SettingsDialog.UpdateSampleCode, TextEditor.SetSettings, TextEditor.ApplySettings,
      TextEditor.update, Function.update_apply]
  · simp [SettingsDialog.UpdateSampleCode, TextEditor.SetSettings, TextEditor.ApplySettings,
      TextEditor.update, Function.update_apply]
  · simp [SettingsDialog.UpdateSampleCode, TextEditor.SetSettings, TextEditor.ApplySettings,
      TextEditor.update, Function.update_apply]
  · simp [SettingsDialog.UpdateSampleCode, TextEditor.SetSettings, TextEditor.ApplySettings,
      TextEditor.update, Function.update_apply]
  · simp [SettingsDialog.UpdateSampleCode, TextEditor.SetSettings, TextEditor.ApplySettings,
      TextEditor.update, Function.update_apply]
  · intro f hf
    simp only [List.mem_cons, List.mem_singleton, List.not_mem_nil, or_false, not_or] at hf
    obtain ⟨h1, h2, h3, h4, h5, h6, h7⟩ := hf
    simp [SettingsDialog.UpdateSampleCode, TextEditor.SetSettings, TextEditor.ApplySettings,
      TextEditor.update, Function.update_apply, h1, h2, h3, h4, h5, h6, h7]

/-- Witness of C16: with the highlight-syntax control holding true, the sample
document is highlighted after `UpdateSampleCode`. -/
theorem UpdateSampleCode_tracks_controls_witness :
    (SettingsDialog.UpdateSampleCode plainToolkit
      { plainDialog with
        mUI := Function.update plainDialog.mUI Control.editorHightlightSyntax
          (Widget.holding (UIValue.flag true)) }).mSampleCode =
      CodeAssistant.ApplyHighlight ⟨"Monokai"⟩ ⟨some "Monokai"⟩ :=
  (UpdateSampleCode_tracks_controls plainToolkit
    { plainDialog with
      mUI := Function.update plainDialog.mUI Control.editorHightlightSyntax
        (Widget.holding (UIValue.flag true)) }).2.1 rfl

end gui
